import Mathlib

/-!
Verification development for the sqlite-haystack repository.

We shallowly embed the filter compiler (`src/sqlite_haystack/filters.py`),
the document-store write path (`src/sqlite_haystack/document_store.py`)
and the request-shaping/validation prefix of the two retriever façades
(`src/sqlite_haystack/bm25_retriever.py`,
`src/sqlite_haystack/embedding_retriever.py`) as pure Lean functions, and
prove or refute the spec's claims about them.

Python dynamic values are modelled by the inductive `Val`; Python dicts
used as filter expressions are modelled by `FilterDict`, whose `Option`
fields distinguish a missing key from a present key (a present null value
is `some Val.vnull`).  Exceptions are modelled by the `Except PyError`
monad.
-/

namespace SqliteHaystack

/-- A JSON-compatible Python value, as used for filter comparison values,
document metadata and bound SQL parameters. -/
inductive Val where
  | vnull : Val
  | vbool : Bool → Val
  | vint : Int → Val
  | vstr : String → Val
  | vlist : List Val → Val
  | vdict : List (String × Val) → Val

mutual

/-- Python `==` on `Val`s (structural equality of JSON-compatible values). -/
def Val.beq : Val → Val → Bool
  | .vnull, .vnull => true
  | .vbool a, .vbool b => a == b
  | .vint a, .vint b => a == b
  | .vstr a, .vstr b => a == b
  | .vlist a, .vlist b => Val.beqList a b
  | .vdict a, .vdict b => Val.beqKVs a b
  | _, _ => false

/-- Elementwise Python `==` on lists of `Val`s. -/
def Val.beqList : List Val → List Val → Bool
  | [], [] => true
  | a :: as, b :: bs => Val.beq a b && Val.beqList as bs
  | _, _ => false

/-- Elementwise Python `==` on string-keyed pair lists. -/
def Val.beqKVs : List (String × Val) → List (String × Val) → Bool
  | [], [] => true
  | a :: as, b :: bs => (a.1 == b.1) && Val.beq a.2 b.2 && Val.beqKVs as bs
  | _, _ => false

end

/-- The Python exception kinds that the embedded code can raise. -/
inductive PyError where
  | filterError : String → PyError
  | valueError : String → PyError
  | indexError : String → PyError
  | keyError : String → PyError
  | duplicateDocumentError : PyError
deriving DecidableEq, Repr

/-- `True` exactly on `FilterError` results (used to state error-taxonomy
claims). -/
def isFilterError {α : Type} : Except PyError α → Bool
  | .error (.filterError _) => true
  | _ => false

/-- `True` exactly on `ValueError` results. -/
def isValueError {α : Type} : Except PyError α → Bool
  | .error (.valueError _) => true
  | _ => false

/-- `True` exactly on `IndexError` results. -/
def isIndexError {α : Type} : Except PyError α → Bool
  | .error (.indexError _) => true
  | _ => false

/-- A Python filter dict.  `field`, `op`, `value` and `conditions` model
the `"field"`, `"operator"`, `"value"` and `"conditions"` keys; a `none`
means the key is absent (so `value = some Val.vnull` is a present null,
distinct from a missing `"value"` key, exactly as `"value" in condition`
distinguishes them in the source). -/
inductive FilterDict where
  | mk : Option String → Option String → Option Val → Option (List FilterDict) → FilterDict

/-- The `"field"` entry of a filter dict. -/
def FilterDict.field : FilterDict → Option String
  | .mk f _ _ _ => f

/-- The `"operator"` entry of a filter dict. -/
def FilterDict.op : FilterDict → Option String
  | .mk _ o _ _ => o

/-- The `"value"` entry of a filter dict. -/
def FilterDict.value : FilterDict → Option Val
  | .mk _ _ v _ => v

/-- The `"conditions"` entry of a filter dict. -/
def FilterDict.conditions : FilterDict → Option (List FilterDict)
  | .mk _ _ _ c => c

/-! ### JSON serialization (`json.dumps`)

Models CPython's `json.dumps` with its default options (`ensure_ascii=True`,
separators `", "` and `": "`), as called by `_in`/`_not_in` on filter
values and by the retrievers on query embeddings. -/

/-- Hex digit for a nibble, lower case, as CPython emits in `\uXXXX`. -/
def hexDigit (n : Nat) : Char :=
  if n < 10 then Char.ofNat (48 + n) else Char.ofNat (87 + n)

/-- Escape one character the way `json.dumps` (default `ensure_ascii=True`)
does inside a string literal. -/
def jsonEscapeChar (c : Char) : List Char :=
  if c = '"' then ['\\', '"']
  else if c = '\\' then ['\\', '\\']
  else if c = '\n' then ['\\', 'n']
  else if c = '\t' then ['\\', 't']
  else if c = '\r' then ['\\', 'r']
  else if c.toNat < 32 ∨ c.toNat > 126 then
    let n := c.toNat % 65536
    ['\\', 'u', hexDigit (n / 4096 % 16), hexDigit (n / 256 % 16),
     hexDigit (n / 16 % 16), hexDigit (n % 16)]
  else [c]

/-- A JSON string literal for `s` (quotes plus escaping). -/
def jsonQuote (s : String) : String :=
  ⟨'"' :: (s.data.flatMap jsonEscapeChar) ++ ['"']⟩

/-- `", ".join`-style separator-interspersing, modelling `str.join`. -/
def joinSep (sep : String) : List String → String
  | [] => ""
  | [x] => x
  | x :: y :: xs => x ++ sep ++ joinSep sep (y :: xs)

mutual

/-- `json.dumps` on a `Val` (default separators, ASCII escaping). -/
def jsonDumps : Val → String
  | .vnull => "null"
  | .vbool true => "true"
  | .vbool false => "false"
  | .vint n => toString n
  | .vstr s => jsonQuote s
  | .vlist xs => "[" ++ joinSep ", " (jsonDumpsList xs) ++ "]"
  | .vdict kvs => "\x7b" ++ joinSep ", " (jsonDumpsKVs kvs) ++ "\x7d"

/-- `json.dumps` applied to each element of a list. -/
def jsonDumpsList : List Val → List String
  | [] => []
  | v :: vs => jsonDumps v :: jsonDumpsList vs

/-- `json.dumps` rendering of each `key: value` entry of an object. -/
def jsonDumpsKVs : List (String × Val) → List String
  | [] => []
  | kv :: kvs => (jsonQuote kv.1 ++ ": " ++ jsonDumps kv.2) :: jsonDumpsKVs kvs

end

/-! ### ISO-8601 parsing (`datetime.fromisoformat`)

The ordering comparators call CPython's `datetime.fromisoformat` to decide
whether a string value is admissible.  `fromisoformatOk` models the
accepting set of that stdlib routine (CPython ≥ 3.11) on its common
formats: a calendar date `YYYY-MM-DD` (or basic `YYYYMMDD`), optionally
followed by a one-character separator and a time
`HH[:MM[:SS[.ffffff]]]` (or basic `HHMM[SS]`) with an optional
`Z`/`±HH:MM` offset. -/

/-- Whether every character of the list is an ASCII digit. -/
def allDigits (cs : List Char) : Bool := cs.all fun c => c.isDigit

/-- Numeric value of a list of ASCII digit characters. -/
def digitsToNat (cs : List Char) : Nat :=
  cs.foldl (fun acc c => acc * 10 + (c.toNat - 48)) 0

/-- Days in a month, with Gregorian leap years. -/
def daysInMonth (y m : Nat) : Nat :=
  if m = 2 then
    if y % 4 = 0 ∧ (y % 100 ≠ 0 ∨ y % 400 = 0) then 29 else 28
  else if m = 4 ∨ m = 6 ∨ m = 9 ∨ m = 11 then 30
  else 31

/-- Validity of a `(year, month, day)` triple as `datetime` requires. -/
def validYMD (y m d : Nat) : Bool :=
  decide (1 ≤ y) && decide (y ≤ 9999) && decide (1 ≤ m) && decide (m ≤ 12) &&
    decide (1 ≤ d) && decide (d ≤ daysInMonth y m)

/-- Validity of the time-of-day components. -/
def validHMS (h m s : Nat) : Bool :=
  decide (h ≤ 23) && decide (m ≤ 59) && decide (s ≤ 59)

/-- Accepts the time-zone suffix: empty, `Z`/`z`, or `±HH:MM[:SS]`. -/
def validOffset (cs : List Char) : Bool :=
  match cs with
  | [] => true
  | ['Z'] => true
  | ['z'] => true
  | sign :: rest =>
      (sign = '+' || sign = '-') &&
        match rest with
        | [h1, h2, ':', m1, m2] =>
            allDigits [h1, h2, m1, m2] &&
              validHMS (digitsToNat [h1, h2]) (digitsToNat [m1, m2]) 0
        | [h1, h2, ':', m1, m2, ':', s1, s2] =>
            allDigits [h1, h2, m1, m2, s1, s2] &&
              validHMS (digitsToNat [h1, h2]) (digitsToNat [m1, m2]) (digitsToNat [s1, s2])
        | _ => false

/-- Accepts an optional fractional-seconds-plus-offset tail: either the
offset alone, or `.` / `,` followed by one to six digits and the offset. -/
def validFracOffset (cs : List Char) : Bool :=
  validOffset cs ||
    match cs with
    | p :: rest =>
        (p = '.' || p = ',') &&
          let frac := rest.takeWhile fun c => c.isDigit
          let post := rest.dropWhile fun c => c.isDigit
          decide (1 ≤ frac.length) && decide (frac.length ≤ 6) && validOffset post
    | [] => false

/-- Accepts the time part `HH[:MM[:SS[.ffffff]]][offset]` (extended) or
`HH[MM[SS[.ffffff]]][offset]` (basic). -/
def validTime (cs : List Char) : Bool :=
  match cs with
  | [h1, h2] => allDigits [h1, h2] && validHMS (digitsToNat [h1, h2]) 0 0
  | h1 :: h2 :: ':' :: m1 :: m2 :: rest =>
      allDigits [h1, h2, m1, m2] &&
        validHMS (digitsToNat [h1, h2]) (digitsToNat [m1, m2]) 0 &&
        (match rest with
         | [] => true
         | ':' :: s1 :: s2 :: tail =>
             allDigits [s1, s2] && decide (digitsToNat [s1, s2] ≤ 59) && validFracOffset tail
         | tail => validOffset tail)
  | h1 :: h2 :: m1 :: m2 :: rest =>
      allDigits [h1, h2, m1, m2] &&
        validHMS (digitsToNat [h1, h2]) (digitsToNat [m1, m2]) 0 &&
        (match rest with
         | [] => true
         | s1 :: s2 :: tail =>
             allDigits [s1, s2] && decide (digitsToNat [s1, s2] ≤ 59) && validFracOffset tail
         | tail => validOffset tail)
  | _ => false

/-- Accepts the date part: `YYYY-MM-DD` or basic `YYYYMMDD`. -/
def validDate (cs : List Char) : Bool :=
  match cs with
  | [y1, y2, y3, y4, '-', m1, m2, '-', d1, d2] =>
      allDigits [y1, y2, y3, y4, m1, m2, d1, d2] &&
        validYMD (digitsToNat [y1, y2, y3, y4]) (digitsToNat [m1, m2]) (digitsToNat [d1, d2])
  | [y1, y2, y3, y4, m1, m2, d1, d2] =>
      allDigits [y1, y2, y3, y4, m1, m2, d1, d2] &&
        validYMD (digitsToNat [y1, y2, y3, y4]) (digitsToNat [m1, m2]) (digitsToNat [d1, d2])
  | _ => false

/-- Models the accepting set of `datetime.fromisoformat`: a date, optionally
followed by a single separator character and a time. -/
def fromisoformatOk (s : String) : Bool :=
  let cs := s.data
  if cs.length ≤ 10 then validDate cs
  else validDate (cs.take 10) && validTime (cs.drop 11)

/-! ### The filter compiler (`filters.py`)

Each Lean definition below embeds the function of the same name in
`src/sqlite_haystack/filters.py`.  Exception messages keep the fixed text
of the source message; interpolated reprs of the offending condition are
omitted (no claim depends on message text). -/

/-- `NO_VALUE` sentinel from `filters.py` line 15. -/
def NO_VALUE : String := "no_value"

/-- Splitting a character list at every occurrence of `c`
(`str.split(sep)` semantics: the empty list yields one empty group). -/
def splitOnChar (c : Char) : List Char → List (List Char)
  | [] => [[]]
  | x :: rest =>
    let r := splitOnChar c rest
    if x = c then [] :: r
    else
      match r with
      | [] => [[x]]
      | g :: gs => (x :: g) :: gs

/-- `field.split(".", 1)[-1]`: everything after the first dot, or the
whole string when it has no dot. -/
def afterFirstDot (field : String) : String :=
  match (splitOnChar '.' field.data).map (fun l => (String.mk l : String)) with
  | [] => field
  | [x] => x
  | _ :: rest => joinSep "." rest

/-- `str.startswith(prefix)`. -/
def pyStartsWith (s pre : String) : Bool := pre.data.isPrefixOf s.data

/-- `_treat_meta_field`: rewrites a `meta.<key>` path to a
`json_extract` expression over the `meta` JSON column.  The `value`
argument is unused, as in the source. -/
def _treat_meta_field (field : String) (_value : Val) : String :=
  let field_name := afterFirstDot field
  "json_extract(meta, '$." ++ field_name ++ "')"

/-- The field expression actually compared against: `_treat_meta_field`
when the field starts with `meta.`, the raw field otherwise
(`_parse_comparison_condition` lines 88–89). -/
def treatedField (field0 : String) (value : Val) : String :=
  if pyStartsWith field0 "meta." then _treat_meta_field field0 value else field0

/-- `_equal`: null value compiles to an `IS NULL` test with the `NO_VALUE`
sentinel in the value slot; otherwise `field = ?`. -/
def _equal (field : String) (value : Val) : Except PyError (String × Val) :=
  match value with
  | .vnull => .ok (field ++ " IS NULL", .vstr NO_VALUE)
  | _ => .ok (field ++ " = ?", value)

/-- `_not_equal`: `field IS NOT ?` (distinct-from, to handle nulls). -/
def _not_equal (field : String) (value : Val) : Except PyError (String × Val) :=
  .ok (field ++ " IS NOT ?", value)

/-- `_greater_than`: strings must be ISO-8601 parseable, lists and dicts
are rejected, everything else compiles to `field > ?`. -/
def _greater_than (field : String) (value : Val) : Except PyError (String × Val) :=
  match value with
  | .vstr s =>
      if fromisoformatOk s then .ok (field ++ " > ?", value)
      else .error (.filterError "Can't compare strings using operators '>', '>=', '<', '<='. Strings are only comparable if they are ISO formatted dates.")
  | .vlist _ => .error (.filterError "Filter value can't be of type list using operators '>', '>=', '<', '<='")
  | .vdict _ => .error (.filterError "Filter value can't be of type dict using operators '>', '>=', '<', '<='")
  | _ => .ok (field ++ " > ?", value)

/-- `_greater_than_equal`: same validation as `_greater_than`, fragment
`field >= ?`. -/
def _greater_than_equal (field : String) (value : Val) : Except PyError (String × Val) :=
  match value with
  | .vstr s =>
      if fromisoformatOk s then .ok (field ++ " >= ?", value)
      else .error (.filterError "Can't compare strings using operators '>', '>=', '<', '<='. Strings are only comparable if they are ISO formatted dates.")
  | .vlist _ => .error (.filterError "Filter value can't be of type list using operators '>', '>=', '<', '<='")
  | .vdict _ => .error (.filterError "Filter value can't be of type dict using operators '>', '>=', '<', '<='")
  | _ => .ok (field ++ " >= ?", value)

/-- `_less_than`: same validation, fragment `field < ?`. -/
def _less_than (field : String) (value : Val) : Except PyError (String × Val) :=
  match value with
  | .vstr s =>
      if fromisoformatOk s then .ok (field ++ " < ?", value)
      else .error (.filterError "Can't compare strings using operators '>', '>=', '<', '<='. Strings are only comparable if they are ISO formatted dates.")
  | .vlist _ => .error (.filterError "Filter value can't be of type list using operators '>', '>=', '<', '<='")
  | .vdict _ => .error (.filterError "Filter value can't be of type dict using operators '>', '>=', '<', '<='")
  | _ => .ok (field ++ " < ?", value)

/-- `_less_than_equal`: same validation, fragment `field <= ?`. -/
def _less_than_equal (field : String) (value : Val) : Except PyError (String × Val) :=
  match value with
  | .vstr s =>
      if fromisoformatOk s then .ok (field ++ " <= ?", value)
      else .error (.filterError "Can't compare strings using operators '>', '>=', '<', '<='. Strings are only comparable if they are ISO formatted dates.")
  | .vlist _ => .error (.filterError "Filter value can't be of type list using operators '>', '>=', '<', '<='")
  | .vdict _ => .error (.filterError "Filter value can't be of type dict using operators '>', '>=', '<', '<='")
  | _ => .ok (field ++ " <= ?", value)

/-- `_not_in`: requires a list value; the single bound parameter is the
JSON dump of the list, and the fragment also matches null fields. -/
def _not_in (field : String) (value : Val) : Except PyError (String × Val) :=
  match value with
  | .vlist _ =>
      .ok (field ++ " IS NULL OR " ++ field ++ " NOT IN (select value from json_each(?))",
        .vstr (jsonDumps value))
  | _ => .error (.filterError "value must be a list when using 'not in' comparator in Pinecone")

/-- `_in`: requires a list value; the single bound parameter is the JSON
dump of the list. -/
def _in (field : String) (value : Val) : Except PyError (String × Val) :=
  match value with
  | .vlist _ =>
      .ok (field ++ " IN (select value from json_each(?))", .vstr (jsonDumps value))
  | _ => .error (.filterError "value must be a list when using 'in' comparator in Pinecone")

/-- The `COMPARISON_OPERATORS` dispatch dict; `none` means the operator is
not a key of the dict. -/
def COMPARISON_OPERATORS (op : String) :
    Option (String → Val → Except PyError (String × Val)) :=
  if op = "==" then some _equal
  else if op = "!=" then some _not_equal
  else if op = ">" then some _greater_than
  else if op = ">=" then some _greater_than_equal
  else if op = "<" then some _less_than
  else if op = "<=" then some _less_than_equal
  else if op = "in" then some _in
  else if op = "not in" then some _not_in
  else none

/-- `_parse_comparison_condition`: key checks, operator dispatch via
`COMPARISON_OPERATORS`, `meta.` field rewriting, and wrapping of the
single produced value into a one-element list. -/
def _parse_comparison_condition (c : FilterDict) : Except PyError (String × List Val) :=
  match c.field with
  | none => .error (.keyError "field")
  | some field0 =>
    match c.op with
    | none => .error (.filterError "'operator' key missing")
    | some operator =>
      match c.value with
      | none => .error (.filterError "'value' key missing")
      | some value =>
        match COMPARISON_OPERATORS operator with
        | none => .error (.filterError "Unknown comparison operator")
        | some f =>
          let field := treatedField field0 value
          match f field value with
          | .error e => .error e
          | .ok (query, v) => .ok (query, [v])

mutual

/-- `_parse_logical_condition`: key checks, operator validation, recursive
child compilation, `values[0]` flattening (the guard
`isinstance(values[0], list)` is always true here, every child returns a
list — but on an empty `conditions` list the subscript itself raises
`IndexError`), and fragment joining. -/
def _parse_logical_condition : FilterDict → Except PyError (String × List Val)
  | .mk _ none _ _ => .error (.filterError "'operator' key missing")
  | .mk _ (some _) _ none => .error (.filterError "'conditions' key missing")
  | .mk _ (some operator) _ (some conds) =>
    if operator ∈ (["AND", "OR", "NOT"] : List String) then
      match _parse_conditions_list conds with
      | .error e => .error e
      | .ok parsed =>
        let query_parts := parsed.map Prod.fst
        match parsed.map Prod.snd with
        | [] => .error (.indexError "list index out of range")
        | v0 :: vrest =>
          let values := (v0 :: vrest).flatten
          if operator = "AND" then .ok ("(" ++ joinSep " AND " query_parts ++ ")", values)
          else if operator = "OR" then .ok ("(" ++ joinSep " OR " query_parts ++ ")", values)
          else if operator = "NOT" then .ok ("NOT (" ++ joinSep " AND " query_parts ++ ")", values)
          else .error (.filterError "Unknown logical operator")
    else .error (.filterError "Unknown logical operator. Valid operators are: 'AND', 'OR', 'NOT'")

/-- The `for c in condition["conditions"]` loop of
`_parse_logical_condition`, dispatching each child on the presence of its
`"field"` key. -/
def _parse_conditions_list : List FilterDict → Except PyError (List (String × List Val))
  | [] => .ok []
  | c :: cs =>
    match (match c.field with
           | some _ => _parse_comparison_condition c
           | none => _parse_logical_condition c) with
    | .error e => .error e
    | .ok r =>
      match _parse_conditions_list cs with
      | .error e => .error e
      | .ok rs => .ok (r :: rs)

end

/-- The `"field" in filters` dispatch shared by the top-level converter
(lines 22–25) and the child loop of `_parse_logical_condition`
(lines 48–51). -/
def parseCondition (c : FilterDict) : Except PyError (String × List Val) :=
  match c.field with
  | some _ => _parse_comparison_condition c
  | none => _parse_logical_condition c

/-- The parameter-stripping predicate `value != NO_VALUE` of line 27:
keeps a value unless it (Python-)equals the string `"no_value"`. -/
def keepParam (v : Val) : Bool := !(Val.beq v (.vstr NO_VALUE))

/-- `_convert_filters_to_where_clause_and_params`: top-level dispatch on
the presence of `"field"`, then stripping of `NO_VALUE` sentinels from the
parameter list. -/
def _convert_filters_to_where_clause_and_params (filters : FilterDict) :
    Except PyError (String × List Val) :=
  match parseCondition filters with
  | .error e => .error e
  | .ok (query, values) => .ok (query, values.filter keepParam)

/-! ### Placeholder counting and clean filters (for the `CompiledPredicate`
invariant) -/

/-- Number of `?` placeholders in a fragment. -/
def countQ (s : String) : Nat := s.data.count '?'

/-- `True` on list values (`isinstance(value, list)`). -/
def Val.isList : Val → Bool
  | .vlist _ => true
  | _ => false

/-- `True` on dict values (`isinstance(value, dict)`). -/
def Val.isDict : Val → Bool
  | .vdict _ => true
  | _ => false

/-- `True` when the `"value"` entry is present and is the literal string
`"no_value"` — the collision case of the sentinel stripping. -/
def valueIsNoValueStr : Option Val → Bool
  | some (.vstr s) => s == NO_VALUE
  | _ => false

mutual

/-- A filter AST is *clean* when every comparison's effective field
expression contains no `?` character and no comparison value is the
literal string `"no_value"`.  These are the side conditions under which
the placeholder/parameter-count invariant of `CompiledPredicate` holds. -/
def cleanFilter : FilterDict → Bool
  | .mk (some f0) _ v _ =>
      decide (countQ (treatedField f0 (v.getD .vnull)) = 0) && !(valueIsNoValueStr v)
  | .mk none _ _ none => true
  | .mk none _ _ (some conds) => cleanList conds

/-- `cleanFilter` on every element of a condition list. -/
def cleanList : List FilterDict → Bool
  | [] => true
  | c :: cs => cleanFilter c && cleanList cs

end

/-! ### A reference model of SQL `AND`/`OR` precedence

Used to state what an emitted fragment *means* to an SQL parser: at
parenthesis depth 0, `AND` binds tighter than `OR`, so a condition chain
is a disjunction of conjunctions of atoms. -/

/-- Parenthesis-depth update for one scanned character. -/
def depthStep (d : Nat) (c : Char) : Nat :=
  if c = '(' then d + 1 else if c = ')' then d - 1 else d

/-- Parenthesis depth after scanning `cs` starting from depth `d`. -/
def depthAfter (cs : List Char) (d : Nat) : Nat := cs.foldl depthStep d

/-- Splits a character list at depth-0 occurrences of `sep`, tracking
parenthesis depth.  `skip` counts separator characters still to be
consumed after a match (they do not affect the depth, exactly as the
matched separator was skipped wholesale before). -/
def splitTopAux (sep : List Char) : List Char → Nat → Nat → List Char → List (List Char)
  | [], _, _, acc => [acc.reverse]
  | _ :: rest, skip + 1, depth, acc => splitTopAux sep rest skip depth acc
  | c :: rest, 0, depth, acc =>
    if decide (depth = 0) && sep.isPrefixOf (c :: rest) then
      acc.reverse :: splitTopAux sep rest (sep.length - 1) 0 []
    else splitTopAux sep rest 0 (depthStep depth c) (c :: acc)

/-- Splits a string at depth-0 occurrences of `sep`. -/
def splitTop (sep s : String) : List String :=
  (splitTopAux sep.data s.data 0 0 []).map String.mk

/-- `true` when scanning `cs` (with `tail` textually following it) from
depth `d` never finds `sep` at parenthesis depth 0 — i.e. `cs` is atomic
for the depth-0 splitter in the context `cs ++ tail`. -/
def scanAtomic (sep tail : List Char) : List Char → Nat → Bool
  | [], _ => true
  | c :: rest, d =>
    !(decide (d = 0) && sep.isPrefixOf (c :: (rest ++ tail))) &&
      scanAtomic sep tail rest (depthStep d c)

/-- Evaluates a parenthesis-free-at-top-level SQL condition chain under an
atom valuation `v`, with standard SQL precedence: the chain is split at
depth-0 ` OR ` into groups, each group at depth-0 ` AND ` into atoms, and
the result is the disjunction of the conjunctions. -/
def sqlAndOrEval (v : String → Bool) (s : String) : Bool :=
  (splitTop " OR " s).any fun grp => (splitTop " AND " grp).all v

/-! ### Document store write path (`document_store.py`)

`write_documents` and `count_documents` over an explicit model of the
`document` table: an insertion-ordered list of rows keyed by the
`id TEXT NOT NULL PRIMARY KEY` column.  A row stores `meta` and
`embedding` as JSON text, as the serialization at lines 197–209 does. -/

/-- A row of the `document` table. -/
structure DocRow where
  id : String
  content : Option String
  dataframe : Val
  blob : Val
  meta : String
  score : Val
  embedding : String

/-- A Haystack `Document` as far as `write_documents` consumes it via
`doc.to_dict(flatten=False)`. -/
structure Doc where
  id : String
  content : Option String
  dataframe : Val
  blob : Val
  meta : Val
  score : Val
  embedding : Val

/-- The tuple built for one document at lines 198–209: `meta` and
`embedding` pass through `json.dumps`. -/
def Doc.toRow (d : Doc) : DocRow :=
  ⟨d.id, d.content, d.dataframe, d.blob, jsonDumps d.meta, d.score, jsonDumps d.embedding⟩

/-- `haystack.document_stores.types.DuplicatePolicy`. -/
inductive DuplicatePolicy where
  | NONE
  | SKIP
  | OVERWRITE
  | FAIL
deriving DecidableEq, Repr

/-- The `executemany` loop of `write_documents` for a chosen conflict
command: rows are inserted in order; under `INSERT OR FAIL` the first
`id` conflict raises `IntegrityError` (surfaced as
`DuplicateDocumentError`), keeping the rows inserted before it (they stay
visible on the connection; no rollback is issued on this path); under
`INSERT OR IGNORE` a conflicting row is skipped; under
`INSERT OR REPLACE` it replaces the existing row.  Returns the resulting
table and the cursor rowcount or the error. -/
def executeInserts (policy : DuplicatePolicy) :
    List DocRow → Int → List DocRow → (List DocRow × Except PyError Int)
  | table, count, [] => (table, .ok count)
  | table, count, row :: rows =>
    if table.any fun r => r.id == row.id then
      match policy with
      | .FAIL => (table, .error .duplicateDocumentError)
      | .SKIP => executeInserts policy table count rows
      | _ => executeInserts policy ((table.filter fun r => !(r.id == row.id)) ++ [row]) (count + 1) rows
    else
      executeInserts policy (table ++ [row]) (count + 1) rows

/-- `SQLiteDocumentStore.write_documents`: `NONE` resolves to `FAIL`
(line 178–179), then the per-policy insert command runs over the encoded
tuples. -/
def write_documents (table : List DocRow) (documents : List Doc) (policy : DuplicatePolicy) :
    List DocRow × Except PyError Int :=
  let policy := if policy = .NONE then .FAIL else policy
  executeInserts policy table 0 (documents.map Doc.toRow)

/-- `SQLiteDocumentStore.count_documents`: `SELECT COUNT(1) FROM document`. -/
def count_documents (table : List DocRow) : Nat := table.length

/-! ### Retriever façades (`bm25_retriever.py`, `embedding_retriever.py`)

The request-shaping prefix of `__init__` and `run` is pure: default
resolution, validation, filter compilation and query/parameter
construction, everything up to the `cursor.execute` call.  `run` is
modelled as returning the `(query_statement, params)` pair it would
execute, inside `Except PyError`. -/

/-- Python truthiness of an `Optional[int]`: `None` and `0` are falsy. -/
def pyTruthyInt : Option Int → Bool
  | none => false
  | some n => !(n == 0)

/-- Python truthiness of a `str`: the empty string is falsy. -/
def pyTruthyStr (s : String) : Bool := !(s == "")

/-- The empty dict `{}` (all keys absent). -/
def FilterDict.isEmptyDict : FilterDict → Bool
  | .mk none none none none => true
  | _ => false

/-- Python truthiness of an `Optional[Dict]` filter argument: `None` and
the empty dict are falsy. -/
def pyTruthyFilters : Option FilterDict → Bool
  | none => false
  | some f => !(f.isEmptyDict)

/-- `filters if filters else {}` (the constructor lines storing
`self._filters`): a falsy argument is stored as the empty dict, here
normalized to `none`. -/
def normalizeFilters (filters : Option FilterDict) : Option FilterDict :=
  if pyTruthyFilters filters then filters else none

/-- The configured state of a `SQLiteBM25Retriever`. -/
structure SQLiteBM25Retriever where
  filters : Option FilterDict
  top_k : Option Int
  tokenizer : String
  snippet : Bool
  snippet_prefix_str : String
  snippet_suffix : String
  snippet_max_tokens : Int
  highlight : Bool
  highlight_prefix_str : String
  highlight_suffix : String

/-- `SQLiteBM25Retriever.__init__`: the document-store type check, the
`if top_k and top_k <= 0` check, the `snippet_max_tokens` range check
(max 64), then field assignment.  `document_store_ok` stands for
`isinstance(document_store, SQLiteDocumentStore)`. -/
def SQLiteBM25Retriever.init (document_store_ok : Bool) (filters : Option FilterDict)
    (top_k : Option Int) (tokenizer : String) (snippet : Bool)
    (snippet_prefix_str snippet_suffix : String) (snippet_max_tokens : Int) (highlight : Bool)
    (highlight_prefix_str highlight_suffix : String) : Except PyError SQLiteBM25Retriever :=
  if !document_store_ok then
    .error (.valueError "document_store must be an instance of SQLiteDocumentStore")
  else if pyTruthyInt top_k && decide (top_k.getD 0 ≤ 0) then
    .error (.valueError "top_k must be greater than 0")
  else if decide (snippet_max_tokens ≤ 0) || decide (snippet_max_tokens > 64) then
    .error (.valueError "snippet_max_tokens must be >0 and <= 64")
  else
    .ok ⟨normalizeFilters filters, top_k, tokenizer, snippet, snippet_prefix_str, snippet_suffix,
      snippet_max_tokens, highlight, highlight_prefix_str, highlight_suffix⟩

/-- `SQLiteBM25Retriever.run` up to `cursor.execute`: argument/default
resolution via Python truthiness, the `if top_k and top_k <= 0` check, the
empty-query check, filter compilation, clause assembly and positional
parameter collection, in source order (lines 100–156). -/
def SQLiteBM25Retriever.run (self : SQLiteBM25Retriever) (query : String)
    (filters : Option FilterDict) (top_k : Option Int) :
    Except PyError (String × List Val) :=
  let filters := if pyTruthyFilters filters then filters else self.filters
  let top_k := if pyTruthyInt top_k then top_k else self.top_k
  if pyTruthyInt top_k && decide (top_k.getD 0 ≤ 0) then
    .error (.valueError "top_k must be greater than 0")
  else if !(pyTruthyStr query) then
    .error (.valueError "Query should be a non-empty string")
  else
    match (match filters with
           | some f =>
             if pyTruthyFilters (some f) then
               match _convert_filters_to_where_clause_and_params f with
               | .error e => .error e
               | .ok (fq, fps) => .ok ("WHERE " ++ fq, fps)
             else .ok ("", [])
           | none => .ok (("" : String), ([] : List Val)) :
             Except PyError (String × List Val)) with
    | .error e => .error e
    | .ok (filter_subclause, params0) =>
      let main0 := "a.id, a.content, a.dataframe, a.blob, a.meta, b.score, a.embedding"
      let rank0 := "id, rank as score"
      let (main1, rank1, params1) :=
        if self.snippet then
          (main0 ++ ", b._snippet",
           rank0 ++ ", snippet(document_fts, 1, ?, ?, '...', ?) as _snippet",
           params0 ++ [.vstr self.snippet_prefix_str, .vstr self.snippet_suffix,
             .vint self.snippet_max_tokens])
        else (main0, rank0, params0)
      let (main2, rank2, params2) :=
        if self.highlight then
          (main1 ++ ", b._highlight",
           rank1 ++ ", highlight(document_fts, 1, ?, ?) as _highlight",
           params1 ++ [.vstr self.highlight_prefix_str, .vstr self.highlight_suffix])
        else (main1, rank1, params1)
      let params3 := params2 ++ [.vstr query]
      let (limit_subclause, params4) :=
        if pyTruthyInt top_k then (("LIMIT ?" : String), params3 ++ [.vint (top_k.getD 0)])
        else ("", params3)
      let query_statement :=
        "\n            SELECT " ++ main2 ++
        "\n            FROM (\n                SELECT * FROM document\n                " ++
        filter_subclause ++
        "\n            ) a\n            INNER JOIN (\n                SELECT " ++ rank2 ++
        "\n                FROM document_fts\n                WHERE document_fts MATCH(?)\n            ) b\n            ON a.id = b.id\n            ORDER BY b.score\n            " ++
        limit_subclause ++ "\n        "
      .ok (query_statement, params4)

/-- The configured state of a `SQLiteVSSEmbeddingRetriever`. -/
structure SQLiteVSSEmbeddingRetriever where
  filters : Option FilterDict
  top_k : Option Int
  num_candidates : Int
  embedding_dims : Int

/-- `SQLiteVSSEmbeddingRetriever.__init__`: the document-store type
check, the `if top_k and (top_k <= 0)` check, the `num_candidates` check,
then field assignment. -/
def SQLiteVSSEmbeddingRetriever.init (document_store_ok : Bool) (filters : Option FilterDict)
    (top_k : Option Int) (num_candidates : Int) (embedding_dims : Int) :
    Except PyError SQLiteVSSEmbeddingRetriever :=
  if !document_store_ok then
    .error (.valueError "document_store must be an instance of SQLiteDocumentStore")
  else if pyTruthyInt top_k && decide (top_k.getD 0 ≤ 0) then
    .error (.valueError "top_k must be greater than 0")
  else if decide (num_candidates ≤ 0) then
    .error (.valueError "num_candidates must be greater than 0")
  else
    .ok ⟨normalizeFilters filters, top_k, num_candidates, embedding_dims⟩

/-- `SQLiteVSSEmbeddingRetriever.run` up to `cursor.execute`: default
resolution (no validation of any argument, lines 82–84), filter
compilation, embedding subclause with the JSON dump of `query_embedding`
and `num_candidates` as bound parameters, optional `LIMIT ?`, and the
query statement (lines 86–120). -/
def SQLiteVSSEmbeddingRetriever.run (self : SQLiteVSSEmbeddingRetriever)
    (query_embedding : List Val) (filters : Option FilterDict) (top_k : Option Int)
    (num_candidates : Option Int) : Except PyError (String × List Val) :=
  let filters := if pyTruthyFilters filters then filters else self.filters
  let top_k := if pyTruthyInt top_k then top_k else self.top_k
  let num_candidates := if pyTruthyInt num_candidates then num_candidates.getD 0
    else self.num_candidates
  match (match filters with
         | some f =>
           if pyTruthyFilters (some f) then
             match _convert_filters_to_where_clause_and_params f with
             | .error e => .error e
             | .ok (fq, fps) => .ok ("WHERE " ++ fq, fps)
           else .ok ("", [])
         | none => .ok (("" : String), ([] : List Val)) :
           Except PyError (String × List Val)) with
  | .error e => .error e
  | .ok (filter_subclause, params0) =>
    let embedding_subclause := "vss_search(embedding, vss_search_params(?, ?))"
    let params1 := params0 ++ [.vstr (jsonDumps (.vlist query_embedding)), .vint num_candidates]
    let (limit_subclause, params2) :=
      if pyTruthyInt top_k then (("LIMIT ?" : String), params1 ++ [.vint (top_k.getD 0)])
      else ("", params1)
    let query_statement :=
      "\n                    SELECT a.id, a.content, a.dataframe, a.blob, a.meta, b.score, a.embedding\n                    FROM (\n                        SELECT rowid, id, content, dataframe, blob, meta, embedding FROM document\n                        " ++
      filter_subclause ++
      "\n                    ) a\n                    INNER JOIN (\n                        SELECT rowid, distance as score\n                        FROM document_vss\n                        WHERE " ++
      embedding_subclause ++
      "\n                    ) b\n                    ON a.rowid = b.rowid\n                    ORDER BY b.score\n                    " ++
      limit_subclause ++ "\n                "
    .ok (query_statement, params2)

/-- `SQLiteDocumentStore.bm25_retrieval` up to `self._db.execute`: the
empty-query check (lines 277–279), filter compilation, the inline
(non-parameterized) `LIMIT {top_k!s}` subclause, and parameter
collection (filter params then the query string). -/
def bm25_retrieval (query : String) (filters : Option FilterDict) (top_k : Option Int) :
    Except PyError (String × List Val) :=
  if !(pyTruthyStr query) then
    .error (.valueError "Query should be a non-empty string")
  else
    match (match filters with
           | some f =>
             if pyTruthyFilters (some f) then
               match _convert_filters_to_where_clause_and_params f with
               | .error e => .error e
               | .ok (fq, fps) => .ok ("WHERE " ++ fq, fps)
             else .ok ("", [])
           | none => .ok (("" : String), ([] : List Val)) :
             Except PyError (String × List Val)) with
    | .error e => .error e
    | .ok (filter_subclause, params0) =>
      let limit_subclause :=
        if pyTruthyInt top_k then "LIMIT " ++ toString (top_k.getD 0) else ""
      let query_statement :=
        "\n            SELECT a.id, a.content, a.dataframe, a.blob, a.meta, b.score, a.embedding\n            FROM (\n                SELECT * FROM document\n                " ++
        filter_subclause ++
        "\n            ) a\n            INNER JOIN (\n                SELECT id, bm25(document_fts) as score\n                FROM document_fts\n                WHERE document_fts MATCH(?)\n            ) b\n            ON a.id = b.id\n            ORDER BY b.score\n            " ++
        limit_subclause ++ "\n        "
      let params1 := params0 ++ [.vstr query]
      .ok (query_statement, params1)

/-- A `SQLiteBM25Retriever` constructed with all-default arguments. -/
def defaultBM25 : SQLiteBM25Retriever :=
  ⟨none, some 10, "trigram", false, "<b>", "</b>", 64, false, "<b>", "</b>"⟩

/-- A `SQLiteVSSEmbeddingRetriever` constructed with all-default
arguments. -/
def defaultVSS : SQLiteVSSEmbeddingRetriever := ⟨none, some 10, 100, 384⟩

/-! ## Helper lemmas -/

theorem countQ_append (a b : String) : countQ (a ++ b) = countQ a + countQ b := by
  simp [countQ, String.data_append, List.count_append]

theorem countQ_joinSep {sep : String} (hsep : countQ sep = 0) (l : List String) :
    countQ (joinSep sep l) = (l.map countQ).sum := by
  induction l with
  | nil => simp [joinSep, countQ]
  | cons x xs ih =>
    cases xs with
    | nil => simp [joinSep]
    | cons y ys =>
      rw [joinSep, countQ_append, countQ_append, hsep, ih]
      simp [Nat.add_assoc]

theorem keepParam_of_ne {v : Val} (h : valueIsNoValueStr (some v) = false) :
    keepParam v = true := by
  cases v with
  | vstr s =>
    simp only [valueIsNoValueStr] at h
    simp [keepParam, Val.beq, h]
  | vnull => rfl
  | vbool b => rfl
  | vint n => rfl
  | vlist xs => rfl
  | vdict kvs => rfl

theorem jsonDumps_vlist_ne (xs : List Val) : jsonDumps (.vlist xs) ≠ NO_VALUE := by
  intro h
  have hhead : (jsonDumps (.vlist xs)).data.head? = some '[' := by
    show (("[" ++ joinSep ", " (jsonDumpsList xs) ++ "]")).data.head? = some '['
    rfl
  rw [h] at hhead
  exact absurd hhead (by decide)

theorem keepParam_dumps (xs : List Val) :
    keepParam (.vstr (jsonDumps (.vlist xs))) = true := by
  simp [keepParam, Val.beq, beq_eq_false_iff_ne, jsonDumps_vlist_ne xs]

/-- Compiling a comparison node through the top-level converter equals
dispatching the operator's function on the treated field and filtering the
single produced value. -/
theorem convert_comparison_eq (f0 : String) (op : String) (v : Val)
    (conds : Option (List FilterDict)) (fc : String → Val → Except PyError (String × Val))
    (hf : COMPARISON_OPERATORS op = some fc) :
    _convert_filters_to_where_clause_and_params (.mk (some f0) (some op) (some v) conds) =
      match fc (treatedField f0 v) v with
      | .error e => .error e
      | .ok (q, v1) => .ok (q, [v1].filter keepParam) := by
  unfold _convert_filters_to_where_clause_and_params parseCondition _parse_comparison_condition
  simp only [FilterDict.field, FilterDict.op, FilterDict.value]
  rw [hf]
  rcases h2 : fc (treatedField f0 v) v with e | ⟨q, v1⟩ <;> simp [h2]

/-- Unrolling of the child loop of `_parse_logical_condition` on a
nonempty condition list. -/
theorem parse_conditions_cons (c : FilterDict) (cs : List FilterDict) :
    _parse_conditions_list (c :: cs) =
      match parseCondition c with
      | .error e => .error e
      | .ok r =>
        match _parse_conditions_list cs with
        | .error e => .error e
        | .ok rs => .ok (r :: rs) := rfl

theorem isPrefixOf_append_self (l t : List Char) : l.isPrefixOf (l ++ t) = true := by
  induction l with
  | nil => simp [List.isPrefixOf]
  | cons a l ih => simp [List.isPrefixOf, ih]

/-- A positive `skip` consumes characters one by one without touching
depth or the accumulator. -/
theorem splitTopAux_skip (sep : List Char) (t : List Char) :
    ∀ (rest : List Char) (d : Nat) (acc : List Char),
    splitTopAux sep (t ++ rest) t.length d acc = splitTopAux sep rest 0 d acc := by
  induction t with
  | nil => intro rest d acc; rfl
  | cons a t ih =>
    intro rest d acc
    show splitTopAux sep (t ++ rest) t.length d acc = _
    exact ih rest d acc

/-- The splitter over `A ++ sep ++ B`: when `A` is atomic for the
splitter in this context and parenthesis-balanced, the first emitted
group is exactly the accumulator followed by `A`, and splitting resumes
on `B` from scratch. -/
theorem splitTopAux_append (sep : List Char) (hsep : sep ≠ []) :
    ∀ (A : List Char) (depth : Nat) (acc B : List Char),
      scanAtomic sep (sep ++ B) A depth = true →
      depthAfter A depth = 0 →
      splitTopAux sep (A ++ (sep ++ B)) 0 depth acc =
        (acc.reverse ++ A) :: splitTopAux sep B 0 0 [] := by
  intro A
  induction A with
  | nil =>
    intro depth acc B _ hdepth
    have hd0 : depth = 0 := hdepth
    subst hd0
    cases sep with
    | nil => exact absurd rfl hsep
    | cons c sep2 =>
      show splitTopAux (c :: sep2) (c :: (sep2 ++ B)) 0 0 acc = _
      have hg : (decide ((0 : Nat) = 0) && (c :: sep2).isPrefixOf (c :: (sep2 ++ B))) =
          true := by
        rw [Bool.and_eq_true]
        exact ⟨by decide, isPrefixOf_append_self (c :: sep2) B⟩
      show (if (decide ((0 : Nat) = 0) && (c :: sep2).isPrefixOf (c :: (sep2 ++ B))) = true
          then acc.reverse :: splitTopAux (c :: sep2) (sep2 ++ B) ((c :: sep2).length - 1) 0 []
          else splitTopAux (c :: sep2) (sep2 ++ B) 0 (depthStep 0 c) (c :: acc)) = _
      rw [hg]
      show acc.reverse :: splitTopAux (c :: sep2) (sep2 ++ B) sep2.length 0 [] = _
      rw [splitTopAux_skip (c :: sep2) sep2 B 0 []]
      simp
  | cons a A2 ih =>
    intro depth acc B hscan hdepth
    have hsc : (!(decide (depth = 0) && sep.isPrefixOf (a :: (A2 ++ (sep ++ B)))) &&
        scanAtomic sep (sep ++ B) A2 (depthStep depth a)) = true := hscan
    rw [Bool.and_eq_true] at hsc
    obtain ⟨hg, hscan2⟩ := hsc
    have hg2 : (decide (depth = 0) && sep.isPrefixOf (a :: (A2 ++ (sep ++ B)))) = false := by
      cases hb : (decide (depth = 0) && sep.isPrefixOf (a :: (A2 ++ (sep ++ B))))
      · rfl
      · rw [hb] at hg; cases hg
    have hdepth2 : depthAfter A2 (depthStep depth a) = 0 := hdepth
    show (if (decide (depth = 0) && sep.isPrefixOf (a :: (A2 ++ (sep ++ B)))) = true
        then acc.reverse :: splitTopAux sep (A2 ++ (sep ++ B)) (sep.length - 1) 0 []
        else splitTopAux sep (A2 ++ (sep ++ B)) 0 (depthStep depth a) (a :: acc)) = _
    rw [hg2]
    show splitTopAux sep (A2 ++ (sep ++ B)) 0 (depthStep depth a) (a :: acc) = _
    rw [ih (depthStep depth a) (a :: acc) B hscan2 hdepth2]
    simp

/-- String-level corollary: splitting `A ++ sep ++ B` at depth-0 `sep`
yields `A` followed by the groups of `B`, for atomic balanced `A`. -/
theorem splitTop_append (sep A B : String) (hsep : sep.data ≠ [])
    (hscan : scanAtomic sep.data (sep.data ++ B.data) A.data 0 = true)
    (hbal : depthAfter A.data 0 = 0) :
    splitTop sep (A ++ sep ++ B) = A :: splitTop sep B := by
  unfold splitTop
  have hdata : (A ++ sep ++ B).data = A.data ++ (sep.data ++ B.data) := by
    show (A.data ++ sep.data) ++ B.data = A.data ++ (sep.data ++ B.data)
    exact List.append_assoc _ _ _
  rw [hdata, splitTopAux_append sep.data hsep A.data 0 [] B.data hscan hbal]
  simp

/-- Standard SQL precedence on a chain of the form `A OR B`: the
disjunction of the two groups' conjunctions, for atomic balanced `A` and
a `B` that the `OR`-splitter leaves whole. -/
theorem sqlAndOrEval_append_or (v : String → Bool) (A B : String)
    (hscan : scanAtomic " OR ".data (" OR ".data ++ B.data) A.data 0 = true)
    (hbal : depthAfter A.data 0 = 0)
    (hB : splitTop " OR " B = [B]) :
    sqlAndOrEval v (A ++ " OR " ++ B) =
      ((splitTop " AND " A).all v || (splitTop " AND " B).all v) := by
  unfold sqlAndOrEval
  rw [splitTop_append " OR " A B (by decide) hscan hbal, hB]
  simp

/-- `str.join` over a concatenation of two nonempty lists. -/
theorem joinSep_append (sep : String) (x : String) (l1 : List String) :
    ∀ (l2 : List String), l2 ≠ [] →
    joinSep sep ((x :: l1) ++ l2) = joinSep sep (x :: l1) ++ sep ++ joinSep sep l2 := by
  induction l1 generalizing x with
  | nil =>
    intro l2 h2
    cases l2 with
    | nil => exact absurd rfl h2
    | cons y l3 => rfl
  | cons x2 l1 ih =>
    intro l2 h2
    show x ++ sep ++ joinSep sep ((x2 :: l1) ++ l2) =
      joinSep sep (x :: x2 :: l1) ++ sep ++ joinSep sep l2
    rw [ih x2 l2 h2]
    show x ++ sep ++ (joinSep sep (x2 :: l1) ++ sep ++ joinSep sep l2) =
      (x ++ sep ++ joinSep sep (x2 :: l1)) ++ sep ++ joinSep sep l2
    simp [String.append_assoc]

/-- The key factorization: joining `P ++ [X ++ " OR " ++ Y] ++ S` with
`" AND "` produces literally the `" OR "` of the two `" AND "`-joined
groups `P ++ [X]` and `Y :: S` — the string that SQL precedence reads as
`(P ∧ X) ∨ (Y ∧ S)`. -/
theorem joinSep_mid_or (P S : List String) (X Y : String) :
    joinSep " AND " (P ++ (X ++ " OR " ++ Y) :: S) =
      joinSep " AND " (P ++ [X]) ++ " OR " ++ joinSep " AND " (Y :: S) := by
  have hmid : ∀ S2 : List String,
      joinSep " AND " ((X ++ " OR " ++ Y) :: S2) =
        X ++ " OR " ++ joinSep " AND " (Y :: S2) := by
    intro S2
    cases S2 with
    | nil => rfl
    | cons s S3 =>
      rw [joinSep, joinSep]
      simp [String.append_assoc]
  cases P with
  | nil => simpa using hmid S
  | cons p P2 =>
    rw [joinSep_append " AND " p P2 ((X ++ " OR " ++ Y) :: S) (by simp),
      joinSep_append " AND " p P2 [X] (by simp), hmid S]
    simp only [String.append_assoc]
    rfl

/-- `_parse_conditions_list` over a concatenation of two successfully
parsed child lists. -/
theorem parse_conditions_append (l1 l2 : List FilterDict)
    (rs2 : List (String × List Val)) (h2 : _parse_conditions_list l2 = .ok rs2) :
    ∀ rs1 : List (String × List Val), _parse_conditions_list l1 = .ok rs1 →
    _parse_conditions_list (l1 ++ l2) = .ok (rs1 ++ rs2) := by
  induction l1 with
  | nil =>
    intro rs1 h1
    have h3 : (Except.ok [] : Except PyError (List (String × List Val))) = .ok rs1 := h1
    injection h3 with h4
    subst h4
    simpa using h2
  | cons c l3 ih =>
    intro rs1 h1
    rw [parse_conditions_cons] at h1
    rcases hc : parseCondition c with e | r
    · rw [hc] at h1; exact Except.noConfusion h1
    · rw [hc] at h1
      rcases hrest : _parse_conditions_list l3 with e | rs3
      · rw [hrest] at h1; exact Except.noConfusion h1
      · rw [hrest] at h1
        injection h1 with h4
        subst h4
        show _parse_conditions_list (c :: (l3 ++ l2)) = _
        rw [parse_conditions_cons, hc, ih rs3 hrest]
        rfl

/-- `AND` over any nonempty, successfully-compiled condition list: the
parenthesized `" AND "`-join of the child fragments with the children's
parameter lists concatenated left-to-right (`_parse_logical_condition`
line 62). -/
theorem logical_and_join (cs : List FilterDict) (rs : List (String × List Val))
    (hne : cs ≠ []) (hp : _parse_conditions_list cs = .ok rs) :
    _parse_logical_condition (.mk none (some "AND") none (some cs)) =
      .ok ("(" ++ joinSep " AND " (rs.map Prod.fst) ++ ")",
        (rs.map Prod.snd).flatten) := by
  cases cs with
  | nil => exact absurd rfl hne
  | cons c cs2 =>
    obtain ⟨r, rs2, rfl⟩ : ∃ r rs2, rs = r :: rs2 := by
      rw [parse_conditions_cons] at hp
      rcases h1 : parseCondition c with e | r
      · rw [h1] at hp; cases hp
      · rw [h1] at hp
        rcases h2 : _parse_conditions_list cs2 with e | rs0
        · rw [h2] at hp; cases hp
        · rw [h2] at hp
          injection hp with h3
          exact ⟨r, rs0, h3.symm⟩
    simp only [_parse_logical_condition]
    rw [hp]
    rfl

/-- Leaf counting: a fragment `tf ++ suffix` with a clean field and a
one-placeholder suffix carries exactly one parameter once the (kept)
value survives the sentinel filter. -/
theorem count_leaf (tf suffix : String) (hf : countQ tf = 0) (hsuf : countQ suffix = 1)
    (v : Val) (hkeep : keepParam v = true) :
    countQ (tf ++ suffix) = ([v].filter keepParam).length := by
  rw [countQ_append, hf, hsuf, List.filter_cons, hkeep]
  rfl

/-- Leaf counting for the null-equality case: no placeholder, and the
`NO_VALUE` sentinel is filtered out. -/
theorem count_leaf_isnull (tf : String) (hf : countQ tf = 0) :
    countQ (tf ++ " IS NULL") = ([Val.vstr NO_VALUE].filter keepParam).length := by
  rw [countQ_append, hf]
  rfl

/-- Leaf counting for the `not in` fragment: the field appears twice but
contributes no placeholder; the single `?` sits in the `json_each` call
and binds the JSON dump of the list. -/
theorem count_leaf_notin (tf : String) (hf : countQ tf = 0) (xs : List Val) :
    countQ (tf ++ " IS NULL OR " ++ tf ++ " NOT IN (select value from json_each(?))") =
      ([Val.vstr (jsonDumps (.vlist xs))].filter keepParam).length := by
  rw [countQ_append, countQ_append, countQ_append, hf, List.filter_cons, keepParam_dumps xs]
  rfl

/-- Placeholder/parameter counting for a single comparison: a successful
`_parse_comparison_condition` on a clean node yields a fragment whose `?`
count equals the number of surviving (non-sentinel) parameters. -/
theorem comp_count {c : FilterDict} (hclean : cleanFilter c = true) {q : String}
    {vals : List Val} (h : _parse_comparison_condition c = .ok (q, vals)) :
    countQ q = (vals.filter keepParam).length := by
  obtain ⟨f, o, v, conds⟩ := c
  cases f with
  | none => exact absurd h (by simp [_parse_comparison_condition, FilterDict.field])
  | some f0 =>
  cases o with
  | none =>
    exact absurd h (by simp [_parse_comparison_condition, FilterDict.field, FilterDict.op])
  | some op =>
  cases v with
  | none =>
    exact absurd h
      (by simp [_parse_comparison_condition, FilterDict.field, FilterDict.op, FilterDict.value])
  | some value =>
  have hclean2 : (decide (countQ (treatedField f0 value) = 0) &&
      !(valueIsNoValueStr (some value))) = true := hclean
  rw [Bool.and_eq_true] at hclean2
  obtain ⟨hf0, hv0⟩ := hclean2
  have hf : countQ (treatedField f0 value) = 0 := of_decide_eq_true hf0
  have hv : valueIsNoValueStr (some value) = false := by
    cases hb : valueIsNoValueStr (some value)
    · rfl
    · rw [hb] at hv0; cases hv0
  have hkeep : keepParam value = true := keepParam_of_ne hv
  unfold _parse_comparison_condition at h
  simp only [FilterDict.field, FilterDict.op, FilterDict.value] at h
  by_cases e1 : op = "=="
  · subst e1
    have hexp : (match _equal (treatedField f0 value) value with
        | .error e => (.error e : Except PyError (String × List Val))
        | .ok (q2, v2) => .ok (q2, [v2])) = .ok (q, vals) := h
    cases value with
    | vnull =>
      have h2 : (Except.ok (treatedField f0 Val.vnull ++ " IS NULL", [Val.vstr NO_VALUE]) :
          Except PyError (String × List Val)) = .ok (q, vals) := hexp
      simp only [Except.ok.injEq, Prod.mk.injEq] at h2
      obtain ⟨hq, hvals⟩ := h2
      subst hq hvals
      exact count_leaf_isnull _ hf
    | vbool b =>
      have h2 : (Except.ok (treatedField f0 (Val.vbool b) ++ " = ?", [(Val.vbool b)]) :
          Except PyError (String × List Val)) = .ok (q, vals) := hexp
      simp only [Except.ok.injEq, Prod.mk.injEq] at h2
      obtain ⟨hq, hvals⟩ := h2
      subst hq hvals
      exact count_leaf _ _ hf (by decide) _ hkeep
    | vint n =>
      have h2 : (Except.ok (treatedField f0 (Val.vint n) ++ " = ?", [(Val.vint n)]) :
          Except PyError (String × List Val)) = .ok (q, vals) := hexp
      simp only [Except.ok.injEq, Prod.mk.injEq] at h2
      obtain ⟨hq, hvals⟩ := h2
      subst hq hvals
      exact count_leaf _ _ hf (by decide) _ hkeep
    | vstr s =>
      have h2 : (Except.ok (treatedField f0 (Val.vstr s) ++ " = ?", [(Val.vstr s)]) :
          Except PyError (String × List Val)) = .ok (q, vals) := hexp
      simp only [Except.ok.injEq, Prod.mk.injEq] at h2
      obtain ⟨hq, hvals⟩ := h2
      subst hq hvals
      exact count_leaf _ _ hf (by decide) _ hkeep
    | vlist xs =>
      have h2 : (Except.ok (treatedField f0 (Val.vlist xs) ++ " = ?", [(Val.vlist xs)]) :
          Except PyError (String × List Val)) = .ok (q, vals) := hexp
      simp only [Except.ok.injEq, Prod.mk.injEq] at h2
      obtain ⟨hq, hvals⟩ := h2
      subst hq hvals
      exact count_leaf _ _ hf (by decide) _ hkeep
    | vdict kvs =>
      have h2 : (Except.ok (treatedField f0 (Val.vdict kvs) ++ " = ?", [(Val.vdict kvs)]) :
          Except PyError (String × List Val)) = .ok (q, vals) := hexp
      simp only [Except.ok.injEq, Prod.mk.injEq] at h2
      obtain ⟨hq, hvals⟩ := h2
      subst hq hvals
      exact count_leaf _ _ hf (by decide) _ hkeep
  by_cases e2 : op = "!="
  · subst e2
    have hexp : (match _not_equal (treatedField f0 value) value with
        | .error e => (.error e : Except PyError (String × List Val))
        | .ok (q2, v2) => .ok (q2, [v2])) = .ok (q, vals) := h
    have h2 : (Except.ok (treatedField f0 value ++ " IS NOT ?", [value]) :
        Except PyError (String × List Val)) = .ok (q, vals) := hexp
    simp only [Except.ok.injEq, Prod.mk.injEq] at h2
    obtain ⟨hq, hvals⟩ := h2
    subst hq hvals
    exact count_leaf _ _ hf (by decide) _ hkeep
  by_cases e3 : op = ">"
  · subst e3
    have hexp : (match _greater_than (treatedField f0 value) value with
        | .error e => (.error e : Except PyError (String × List Val))
        | .ok (q2, v2) => .ok (q2, [v2])) = .ok (q, vals) := h
    cases value with
    | vstr s =>
      cases hiso : fromisoformatOk s with
      | false =>
        simp only [_greater_than, hiso] at hexp
        exact Except.noConfusion hexp
      | true =>
        simp only [_greater_than, hiso, if_true, Except.ok.injEq, Prod.mk.injEq] at hexp
        obtain ⟨hq, hvals⟩ := hexp
        subst hq hvals
        exact count_leaf _ _ hf (by decide) _ hkeep
    | vlist xs => exact Except.noConfusion hexp
    | vdict kvs => exact Except.noConfusion hexp
    | vnull =>
      have h2 : (Except.ok (treatedField f0 Val.vnull ++ " > ?", [Val.vnull]) :
          Except PyError (String × List Val)) = .ok (q, vals) := hexp
      simp only [Except.ok.injEq, Prod.mk.injEq] at h2
      obtain ⟨hq, hvals⟩ := h2
      subst hq hvals
      exact count_leaf _ _ hf (by decide) _ hkeep
    | vbool b =>
      have h2 : (Except.ok (treatedField f0 (Val.vbool b) ++ " > ?", [(Val.vbool b)]) :
          Except PyError (String × List Val)) = .ok (q, vals) := hexp
      simp only [Except.ok.injEq, Prod.mk.injEq] at h2
      obtain ⟨hq, hvals⟩ := h2
      subst hq hvals
      exact count_leaf _ _ hf (by decide) _ hkeep
    | vint n =>
      have h2 : (Except.ok (treatedField f0 (Val.vint n) ++ " > ?", [(Val.vint n)]) :
          Except PyError (String × List Val)) = .ok (q, vals) := hexp
      simp only [Except.ok.injEq, Prod.mk.injEq] at h2
      obtain ⟨hq, hvals⟩ := h2
      subst hq hvals
      exact count_leaf _ _ hf (by decide) _ hkeep
  by_cases e4 : op = ">="
  · subst e4
    have hexp : (match _greater_than_equal (treatedField f0 value) value with
        | .error e => (.error e : Except PyError (String × List Val))
        | .ok (q2, v2) => .ok (q2, [v2])) = .ok (q, vals) := h
    cases value with
    | vstr s =>
      cases hiso : fromisoformatOk s with
      | false =>
        simp only [_greater_than_equal, hiso] at hexp
        exact Except.noConfusion hexp
      | true =>
        simp only [_greater_than_equal, hiso, if_true, Except.ok.injEq, Prod.mk.injEq] at hexp
        obtain ⟨hq, hvals⟩ := hexp
        subst hq hvals
        exact count_leaf _ _ hf (by decide) _ hkeep
    | vlist xs => exact Except.noConfusion hexp
    | vdict kvs => exact Except.noConfusion hexp
    | vnull =>
      have h2 : (Except.ok (treatedField f0 Val.vnull ++ " >= ?", [Val.vnull]) :
          Except PyError (String × List Val)) = .ok (q, vals) := hexp
      simp only [Except.ok.injEq, Prod.mk.injEq] at h2
      obtain ⟨hq, hvals⟩ := h2
      subst hq hvals
      exact count_leaf _ _ hf (by decide) _ hkeep
    | vbool b =>
      have h2 : (Except.ok (treatedField f0 (Val.vbool b) ++ " >= ?", [(Val.vbool b)]) :
          Except PyError (String × List Val)) = .ok (q, vals) := hexp
      simp only [Except.ok.injEq, Prod.mk.injEq] at h2
      obtain ⟨hq, hvals⟩ := h2
      subst hq hvals
      exact count_leaf _ _ hf (by decide) _ hkeep
    | vint n =>
      have h2 : (Except.ok (treatedField f0 (Val.vint n) ++ " >= ?", [(Val.vint n)]) :
          Except PyError (String × List Val)) = .ok (q, vals) := hexp
      simp only [Except.ok.injEq, Prod.mk.injEq] at h2
      obtain ⟨hq, hvals⟩ := h2
      subst hq hvals
      exact count_leaf _ _ hf (by decide) _ hkeep
  by_cases e5 : op = "<"
  · subst e5
    have hexp : (match _less_than (treatedField f0 value) value with
        | .error e => (.error e : Except PyError (String × List Val))
        | .ok (q2, v2) => .ok (q2, [v2])) = .ok (q, vals) := h
    cases value with
    | vstr s =>
      cases hiso : fromisoformatOk s with
      | false =>
        simp only [_less_than, hiso] at hexp
        exact Except.noConfusion hexp
      | true =>
        simp only [_less_than, hiso, if_true, Except.ok.injEq, Prod.mk.injEq] at hexp
        obtain ⟨hq, hvals⟩ := hexp
        subst hq hvals
        exact count_leaf _ _ hf (by decide) _ hkeep
    | vlist xs => exact Except.noConfusion hexp
    | vdict kvs => exact Except.noConfusion hexp
    | vnull =>
      have h2 : (Except.ok (treatedField f0 Val.vnull ++ " < ?", [Val.vnull]) :
          Except PyError (String × List Val)) = .ok (q, vals) := hexp
      simp only [Except.ok.injEq, Prod.mk.injEq] at h2
      obtain ⟨hq, hvals⟩ := h2
      subst hq hvals
      exact count_leaf _ _ hf (by decide) _ hkeep
    | vbool b =>
      have h2 : (Except.ok (treatedField f0 (Val.vbool b) ++ " < ?", [(Val.vbool b)]) :
          Except PyError (String × List Val)) = .ok (q, vals) := hexp
      simp only [Except.ok.injEq, Prod.mk.injEq] at h2
      obtain ⟨hq, hvals⟩ := h2
      subst hq hvals
      exact count_leaf _ _ hf (by decide) _ hkeep
    | vint n =>
      have h2 : (Except.ok (treatedField f0 (Val.vint n) ++ " < ?", [(Val.vint n)]) :
          Except PyError (String × List Val)) = .ok (q, vals) := hexp
      simp only [Except.ok.injEq, Prod.mk.injEq] at h2
      obtain ⟨hq, hvals⟩ := h2
      subst hq hvals
      exact count_leaf _ _ hf (by decide) _ hkeep
  by_cases e6 : op = "<="
  · subst e6
    have hexp : (match _less_than_equal (treatedField f0 value) value with
        | .error e => (.error e : Except PyError (String × List Val))
        | .ok (q2, v2) => .ok (q2, [v2])) = .ok (q, vals) := h
    cases value with
    | vstr s =>
      cases hiso : fromisoformatOk s with
      | false =>
        simp only [_less_than_equal, hiso] at hexp
        exact Except.noConfusion hexp
      | true =>
        simp only [_less_than_equal, hiso, if_true, Except.ok.injEq, Prod.mk.injEq] at hexp
        obtain ⟨hq, hvals⟩ := hexp
        subst hq hvals
        exact count_leaf _ _ hf (by decide) _ hkeep
    | vlist xs => exact Except.noConfusion hexp
    | vdict kvs => exact Except.noConfusion hexp
    | vnull =>
      have h2 : (Except.ok (treatedField f0 Val.vnull ++ " <= ?", [Val.vnull]) :
          Except PyError (String × List Val)) = .ok (q, vals) := hexp
      simp only [Except.ok.injEq, Prod.mk.injEq] at h2
      obtain ⟨hq, hvals⟩ := h2
      subst hq hvals
      exact count_leaf _ _ hf (by decide) _ hkeep
    | vbool b =>
      have h2 : (Except.ok (treatedField f0 (Val.vbool b) ++ " <= ?", [(Val.vbool b)]) :
          Except PyError (String × List Val)) = .ok (q, vals) := hexp
      simp only [Except.ok.injEq, Prod.mk.injEq] at h2
      obtain ⟨hq, hvals⟩ := h2
      subst hq hvals
      exact count_leaf _ _ hf (by decide) _ hkeep
    | vint n =>
      have h2 : (Except.ok (treatedField f0 (Val.vint n) ++ " <= ?", [(Val.vint n)]) :
          Except PyError (String × List Val)) = .ok (q, vals) := hexp
      simp only [Except.ok.injEq, Prod.mk.injEq] at h2
      obtain ⟨hq, hvals⟩ := h2
      subst hq hvals
      exact count_leaf _ _ hf (by decide) _ hkeep
  by_cases e7 : op = "in"
  · subst e7
    have hexp : (match _in (treatedField f0 value) value with
        | .error e => (.error e : Except PyError (String × List Val))
        | .ok (q2, v2) => .ok (q2, [v2])) = .ok (q, vals) := h
    cases value with
    | vlist xs =>
      have h2 : (Except.ok (treatedField f0 (Val.vlist xs) ++
            " IN (select value from json_each(?))",
          [Val.vstr (jsonDumps (Val.vlist xs))]) :
          Except PyError (String × List Val)) = .ok (q, vals) := hexp
      simp only [Except.ok.injEq, Prod.mk.injEq] at h2
      obtain ⟨hq, hvals⟩ := h2
      subst hq hvals
      exact count_leaf _ _ hf (by decide) _ (keepParam_dumps xs)
    | vnull => exact Except.noConfusion hexp
    | vbool b => exact Except.noConfusion hexp
    | vint n => exact Except.noConfusion hexp
    | vstr s => exact Except.noConfusion hexp
    | vdict kvs => exact Except.noConfusion hexp
  by_cases e8 : op = "not in"
  · subst e8
    have hexp : (match _not_in (treatedField f0 value) value with
        | .error e => (.error e : Except PyError (String × List Val))
        | .ok (q2, v2) => .ok (q2, [v2])) = .ok (q, vals) := h
    cases value with
    | vlist xs =>
      have h2 : (Except.ok (treatedField f0 (Val.vlist xs) ++ " IS NULL OR " ++
            treatedField f0 (Val.vlist xs) ++ " NOT IN (select value from json_each(?))",
          [Val.vstr (jsonDumps (Val.vlist xs))]) :
          Except PyError (String × List Val)) = .ok (q, vals) := hexp
      simp only [Except.ok.injEq, Prod.mk.injEq] at h2
      obtain ⟨hq, hvals⟩ := h2
      subst hq hvals
      exact count_leaf_notin _ hf xs
    | vnull => exact Except.noConfusion hexp
    | vbool b => exact Except.noConfusion hexp
    | vint n => exact Except.noConfusion hexp
    | vstr s => exact Except.noConfusion hexp
    | vdict kvs => exact Except.noConfusion hexp
  · have hnone : COMPARISON_OPERATORS op = none := by
      unfold COMPARISON_OPERATORS
      rw [if_neg e1, if_neg e2, if_neg e3, if_neg e4, if_neg e5, if_neg e6, if_neg e7,
        if_neg e8]
    rw [hnone] at h
    exact Except.noConfusion h

/-- Counting for the child loop: given the induction hypothesis for
smaller nodes, every pair produced by `_parse_conditions_list` on clean
children satisfies the fragment/parameter count equality. -/
theorem parseList_count (n : Nat)
    (ih : ∀ c : FilterDict, sizeOf c ≤ n → cleanFilter c = true →
      ∀ q vals, parseCondition c = .ok (q, vals) → countQ q = (vals.filter keepParam).length) :
    ∀ cs : List FilterDict, sizeOf cs ≤ n + 1 → cleanList cs = true →
      ∀ rs, _parse_conditions_list cs = .ok rs →
      ∀ r ∈ rs, countQ r.1 = (r.2.filter keepParam).length := by
  intro cs
  induction cs with
  | nil =>
    intro _ _ rs hp r hr
    simp only [_parse_conditions_list] at hp
    injection hp with h2
    subst h2
    exact absurd hr (List.not_mem_nil r)
  | cons c cs' ihl =>
    intro hsz hclean rs hp r hr
    rw [parse_conditions_cons] at hp
    rcases h1 : parseCondition c with e | r1
    · rw [h1] at hp; exact Except.noConfusion hp
    · rw [h1] at hp
      rcases h2 : _parse_conditions_list cs' with e | rs1
      · rw [h2] at hp; exact Except.noConfusion hp
      · rw [h2] at hp
        injection hp with h3
        subst h3
        have hs1 : sizeOf c ≤ n ∧ sizeOf cs' ≤ n + 1 := by
          have := List.cons.sizeOf_spec c cs'
          omega
        have hcl : cleanFilter c = true ∧ cleanList cs' = true := by
          simpa [cleanList, Bool.and_eq_true] using hclean
        rcases List.mem_cons.mp hr with rfl | hr'
        · exact ih c hs1.1 hcl.1 r.1 r.2 h1
        · exact ihl hs1.2 hcl.2 rs1 h2 r hr'

/-- Counting for the whole compiler, by strong induction on node size:
on every clean filter AST, a successful parse yields a fragment whose `?`
count equals the number of surviving parameters. -/
theorem parseCondition_count :
    ∀ (n : Nat) (c : FilterDict), sizeOf c ≤ n → cleanFilter c = true →
      ∀ q vals, parseCondition c = .ok (q, vals) →
      countQ q = (vals.filter keepParam).length := by
  intro n
  induction n with
  | zero =>
    intro c hsz
    exfalso
    obtain ⟨f, o, v, conds⟩ := c
    have := FilterDict.mk.sizeOf_spec f o v conds
    omega
  | succ n ihn =>
    intro c hsz hclean q vals h
    obtain ⟨f, o, v, conds⟩ := c
    cases f with
    | some f0 => exact comp_count hclean h
    | none =>
      cases o with
      | none => exact Except.noConfusion h
      | some op =>
        cases conds with
        | none => exact Except.noConfusion h
        | some cs =>
          have hlog : _parse_logical_condition (.mk none (some op) v (some cs)) =
              .ok (q, vals) := h
          by_cases hmem : op ∈ (["AND", "OR", "NOT"] : List String)
          · simp only [_parse_logical_condition] at hlog
            rw [if_pos hmem] at hlog
            rcases hp : _parse_conditions_list cs with e | parsed
            · rw [hp] at hlog; exact Except.noConfusion hlog
            · rw [hp] at hlog
              have hclean' : cleanList cs = true := by simpa [cleanFilter] using hclean
              have hsz' : sizeOf cs ≤ n + 1 := by
                have h1 := FilterDict.mk.sizeOf_spec (none : Option String) (some op) v
                  (some cs)
                have h2 := Option.some.sizeOf_spec cs
                omega
              have hchild := parseList_count n ihn cs hsz' hclean' parsed hp
              have hsum : (parsed.map (countQ ∘ Prod.fst)).sum =
                  (parsed.map (List.length ∘ List.filter keepParam ∘ Prod.snd)).sum :=
                congrArg List.sum (List.map_congr_left fun r hr => hchild r hr)
              have hlog2 : (match parsed.map Prod.snd with
                  | [] => (.error (.indexError "list index out of range") :
                      Except PyError (String × List Val))
                  | v0 :: vrest =>
                    if op = "AND" then
                      .ok ("(" ++ joinSep " AND " (parsed.map Prod.fst) ++ ")",
                        (v0 :: vrest).flatten)
                    else if op = "OR" then
                      .ok ("(" ++ joinSep " OR " (parsed.map Prod.fst) ++ ")",
                        (v0 :: vrest).flatten)
                    else if op = "NOT" then
                      .ok ("NOT (" ++ joinSep " AND " (parsed.map Prod.fst) ++ ")",
                        (v0 :: vrest).flatten)
                    else .error (.filterError "Unknown logical operator")) =
                  .ok (q, vals) := hlog
              have hpar1 : countQ "(" = 0 := by decide
              have hpar2 : countQ ")" = 0 := by decide
              have hpar3 : countQ "NOT (" = 0 := by decide
              split at hlog2
              · exact Except.noConfusion hlog2
              · rename_i v0 vrest hm
                split at hlog2
                · simp only [Except.ok.injEq, Prod.mk.injEq] at hlog2
                  obtain ⟨hq, hvals⟩ := hlog2
                  subst hq hvals
                  rw [← hm, countQ_append, countQ_append,
                    countQ_joinSep (by decide : countQ " AND " = 0), hpar1, hpar2,
                    List.filter_flatten, List.length_flatten]
                  simp only [List.map_map]
                  omega
                · split at hlog2
                  · simp only [Except.ok.injEq, Prod.mk.injEq] at hlog2
                    obtain ⟨hq, hvals⟩ := hlog2
                    subst hq hvals
                    rw [← hm, countQ_append, countQ_append,
                      countQ_joinSep (by decide : countQ " OR " = 0), hpar1, hpar2,
                      List.filter_flatten, List.length_flatten]
                    simp only [List.map_map]
                    omega
                  · split at hlog2
                    · simp only [Except.ok.injEq, Prod.mk.injEq] at hlog2
                      obtain ⟨hq, hvals⟩ := hlog2
                      subst hq hvals
                      rw [← hm, countQ_append, countQ_append,
                        countQ_joinSep (by decide : countQ " AND " = 0), hpar3, hpar2,
                        List.filter_flatten, List.length_flatten]
                      simp only [List.map_map]
                      omega
                    · exact Except.noConfusion hlog2
          · simp only [_parse_logical_condition] at hlog
            rw [if_neg hmem] at hlog
            exact Except.noConfusion hlog

/-! ## Claim theorems -/

/-- **C1** (counterexample): when a comparison value is the literal
string `"no_value"`, the sentinel stripping removes the user's genuine
parameter while the `?` placeholder remains in the fragment, so the
placeholder count (1) exceeds the parameter count (0). -/
theorem c1_counterexample :
    _convert_filters_to_where_clause_and_params
        (.mk (some "f") (some "==") (some (.vstr "no_value")) none) = .ok ("f = ?", []) ∧
    countQ "f = ?" ≠ ([] : List Val).length :=
  ⟨rfl, by decide⟩

/-- **C1** (amended): for every FilterExpression accepted by the compiler
in which no comparison value is the literal string `"no_value"` and no
(possibly meta-rewritten) field expression contains a `?` character
(`cleanFilter`), the number of `?` placeholders in the compiled fragment
equals the length of the parameter tuple; the parameters are the
depth-first left-to-right concatenation of the per-comparison values with
the sentinels stripped. -/
theorem c1_placeholder_invariant (f : FilterDict) (hclean : cleanFilter f = true)
    (q : String) (ps : List Val)
    (h : _convert_filters_to_where_clause_and_params f = .ok (q, ps)) :
    countQ q = ps.length := by
  unfold _convert_filters_to_where_clause_and_params at h
  rcases h1 : parseCondition f with e | r
  · rw [h1] at h; exact Except.noConfusion h
  · rw [h1] at h
    have h2 : (Except.ok (r.1, r.2.filter keepParam) : Except PyError (String × List Val)) =
        .ok (q, ps) := h
    simp only [Except.ok.injEq, Prod.mk.injEq] at h2
    obtain ⟨hq, hps⟩ := h2
    subst hq hps
    exact parseCondition_count (sizeOf f) f (Nat.le_refl _) hclean r.1 r.2 h1

/-- **C1** (witness): the invariant theorem applied at the spec's `AND`
example filter (two meta comparisons, two placeholders, two parameters). -/
theorem c1_witness :
    countQ "(json_extract(meta, '$.type') = ? AND json_extract(meta, '$.rating') >= ?)" =
      ([Val.vstr "article", Val.vint 3] : List Val).length :=
  c1_placeholder_invariant
    (.mk none (some "AND") none
      (some [.mk (some "meta.type") (some "==") (some (.vstr "article")) none,
             .mk (some "meta.rating") (some ">=") (some (.vint 3)) none]))
    (by decide)
    "(json_extract(meta, '$.type') = ? AND json_extract(meta, '$.rating') >= ?)"
    [Val.vstr "article", Val.vint 3] rfl

/-- **C5**: for every `==` comparison with a null value, the compiled
predicate is an `IS NULL` test on the (possibly meta-rewritten) field and
the final parameter tuple is empty — the `NO_VALUE` sentinel is stripped
and no placeholder is emitted. -/
theorem c5_null_equality (f0 : String) :
    _convert_filters_to_where_clause_and_params (.mk (some f0) (some "==") (some .vnull) none) =
      .ok (treatedField f0 .vnull ++ " IS NULL", []) := rfl

/-- **C9**: writing a document to an empty store under `FAIL`, then
writing a same-id document again under `FAIL`, returns
`DuplicateDocumentError` on the second write, and `count_documents`
afterwards is `1` (the first document is retained, the failed write
changes nothing). -/
theorem c9_duplicate_fail :
    (write_documents [] [⟨"1", some "first", .vnull, .vnull, .vdict [], .vnull, .vnull⟩]
        .FAIL).2 = .ok 1 ∧
    count_documents (write_documents []
        [⟨"1", some "first", .vnull, .vnull, .vdict [], .vnull, .vnull⟩] .FAIL).1 = 1 ∧
    (write_documents (write_documents []
          [⟨"1", some "first", .vnull, .vnull, .vdict [], .vnull, .vnull⟩] .FAIL).1
        [⟨"1", some "second", .vnull, .vnull, .vdict [], .vnull, .vnull⟩] .FAIL).2 =
      .error .duplicateDocumentError ∧
    count_documents (write_documents (write_documents []
          [⟨"1", some "first", .vnull, .vnull, .vdict [], .vnull, .vnull⟩] .FAIL).1
        [⟨"1", some "second", .vnull, .vnull, .vdict [], .vnull, .vnull⟩] .FAIL).1 = 1 :=
  ⟨rfl, rfl, rfl, rfl⟩

/-- **C2**: the claim says a resolved `top_k` of zero or negative raises a
validation error in every retriever façade, and the constructors document
`:raises ValueError: If the specified top_k is not > 0.`; but the guard
`if top_k and top_k <= 0` treats `0` as falsy, so `top_k=0` is accepted at
construction by both retrievers, `run(top_k=0)` silently falls back to the
stored default, and `SQLiteVSSEmbeddingRetriever.run` performs no `top_k`
validation at all (even `-1` is accepted).  Only the constructors reject
negative values. -/
theorem c2_top_k_zero_accepted :
    (SQLiteBM25Retriever.init true none (some 0) "trigram" false "<b>" "</b>" 64 false
      "<b>" "</b>").isOk = true ∧
    (SQLiteVSSEmbeddingRetriever.init true none (some 0) 100 384).isOk = true ∧
    (SQLiteBM25Retriever.run defaultBM25 "fox" none (some 0)).isOk = true ∧
    (SQLiteVSSEmbeddingRetriever.run defaultVSS [.vint 1] none (some (-1)) none).isOk = true ∧
    isValueError (SQLiteBM25Retriever.init true none (some (-1)) "trigram" false "<b>" "</b>"
      64 false "<b>" "</b>") = true ∧
    isValueError (SQLiteBM25Retriever.run defaultBM25 "fox" none (some (-1))) = true :=
  ⟨rfl, rfl, rfl, rfl, rfl, rfl⟩

/-- **C3** (counterexample): embedding retrieval with an empty
`query_embedding` does *not* raise — `run` proceeds to build and execute
the query, binding the JSON dump `"[]"` as the search parameter. -/
theorem c3_counterexample :
    (SQLiteVSSEmbeddingRetriever.run defaultVSS [] none none none).isOk = true ∧
    Except.map Prod.snd (SQLiteVSSEmbeddingRetriever.run defaultVSS [] none none none) =
      .ok [.vstr "[]", .vint 100, .vint 10] :=
  ⟨rfl, rfl⟩

/-- **C3** (amended): an empty lexical query is rejected with a
`ValueError` by `SQLiteBM25Retriever.run` (for every retriever state and
arguments) and by `SQLiteDocumentStore.bm25_retrieval`; but an empty
`query_embedding` is not validated — `SQLiteVSSEmbeddingRetriever.run`
executes the query with `"[]"` bound. -/
theorem c3_empty_query_policy :
    (∀ (st : SQLiteBM25Retriever) (f : Option FilterDict) (tk : Option Int),
      isValueError (SQLiteBM25Retriever.run st "" f tk) = true) ∧
    (∀ (f : Option FilterDict) (tk : Option Int),
      isValueError (bm25_retrieval "" f tk) = true) ∧
    (SQLiteVSSEmbeddingRetriever.run defaultVSS [] none none none).isOk = true := by
  refine ⟨fun st f tk => ?_, fun f tk => rfl, rfl⟩
  unfold SQLiteBM25Retriever.run
  dsimp only
  by_cases h : (pyTruthyInt (if pyTruthyInt tk = true then tk else st.top_k) &&
      decide ((if pyTruthyInt tk = true then tk else st.top_k).getD 0 ≤ 0)) = true
  · rw [if_pos h]
    rfl
  · rw [if_neg h]
    rfl

/-- **C4** (counterexample): a Logical node with a valid operator and an
*empty* `conditions` list raises `IndexError` (from the `values[0]`
subscript), not `FilterError` as the claim states. -/
theorem c4_counterexample :
    _convert_filters_to_where_clause_and_params (.mk none (some "AND") none (some [])) =
      .error (.indexError "list index out of range") ∧
    isFilterError
      (_convert_filters_to_where_clause_and_params (.mk none (some "AND") none (some []))) =
      false :=
  ⟨rfl, rfl⟩

/-- **C4** (amended): for a Logical node (no `field` key), a missing
`operator` key, a missing `conditions` key, or an operator outside
`{AND, OR, NOT}` each raise `FilterError`; but an *empty* `conditions`
list with a valid operator raises `IndexError` instead. -/
theorem c4_logical_malformed (v : Option Val) :
    (∀ conds : Option (List FilterDict),
      isFilterError (_convert_filters_to_where_clause_and_params (.mk none none v conds)) =
        true) ∧
    (∀ o : String,
      isFilterError (_convert_filters_to_where_clause_and_params (.mk none (some o) v none)) =
        true) ∧
    (∀ o : String, o ∉ (["AND", "OR", "NOT"] : List String) → ∀ conds : List FilterDict,
      isFilterError
        (_convert_filters_to_where_clause_and_params (.mk none (some o) v (some conds))) =
        true) ∧
    (∀ o : String, o ∈ (["AND", "OR", "NOT"] : List String) →
      isIndexError
        (_convert_filters_to_where_clause_and_params (.mk none (some o) v (some []))) =
        true) := by
  refine ⟨fun conds => rfl, fun o => rfl, fun o ho conds => ?_, fun o ho => ?_⟩
  · unfold _convert_filters_to_where_clause_and_params parseCondition _parse_logical_condition
    simp [FilterDict.field, ho]
    rfl
  · simp only [List.mem_cons, List.not_mem_nil, or_false] at ho
    rcases ho with rfl | rfl | rfl
    · rfl
    · rfl
    · rfl

/-- **C4** (witness): the amended theorem applied at concrete malformed
Logical nodes. -/
theorem c4_witness :
    isFilterError
      (_convert_filters_to_where_clause_and_params (.mk none none none (some []))) = true ∧
    isFilterError
      (_convert_filters_to_where_clause_and_params (.mk none (some "AND") none none)) = true ∧
    isFilterError
      (_convert_filters_to_where_clause_and_params (.mk none (some "XOR") none (some []))) =
      true ∧
    isIndexError
      (_convert_filters_to_where_clause_and_params (.mk none (some "AND") none (some []))) =
      true :=
  ⟨(c4_logical_malformed none).1 (some []),
   (c4_logical_malformed none).2.1 "AND",
   (c4_logical_malformed none).2.2.1 "XOR" (by decide) [],
   (c4_logical_malformed none).2.2.2 "AND" (by decide)⟩

/-- **C6**: `in`/`not in` comparisons reject non-list values with
`FilterError`; on a list value each compiles to a set-membership fragment
whose single bound parameter is the JSON-encoded array, the `not in`
fragment additionally matching null fields via
`field IS NULL OR field NOT IN (...)`; and each fragment carries exactly
one placeholder beyond those in the field expression, regardless of the
list's length. -/
theorem c6_membership (f0 : String) (v : Val) (xs : List Val) :
    (Val.isList v = false →
      isFilterError (_convert_filters_to_where_clause_and_params
        (.mk (some f0) (some "in") (some v) none)) = true ∧
      isFilterError (_convert_filters_to_where_clause_and_params
        (.mk (some f0) (some "not in") (some v) none)) = true) ∧
    (_convert_filters_to_where_clause_and_params
        (.mk (some f0) (some "in") (some (.vlist xs)) none) =
      .ok (treatedField f0 (.vlist xs) ++ " IN (select value from json_each(?))",
        [.vstr (jsonDumps (.vlist xs))])) ∧
    (_convert_filters_to_where_clause_and_params
        (.mk (some f0) (some "not in") (some (.vlist xs)) none) =
      .ok (treatedField f0 (.vlist xs) ++ " IS NULL OR " ++ treatedField f0 (.vlist xs) ++
          " NOT IN (select value from json_each(?))",
        [.vstr (jsonDumps (.vlist xs))])) ∧
    countQ (treatedField f0 (.vlist xs) ++ " IN (select value from json_each(?))") =
      countQ (treatedField f0 (.vlist xs)) + 1 ∧
    countQ (treatedField f0 (.vlist xs) ++ " IS NULL OR " ++ treatedField f0 (.vlist xs) ++
        " NOT IN (select value from json_each(?))") =
      2 * countQ (treatedField f0 (.vlist xs)) + 1 := by
  refine ⟨fun hv => ⟨?_, ?_⟩, ?_, ?_, ?_, ?_⟩
  · cases v with
    | vlist l => exact absurd hv (by simp [Val.isList])
    | vnull => rfl
    | vbool b => rfl
    | vint n => rfl
    | vstr s => rfl
    | vdict kvs => rfl
  · cases v with
    | vlist l => exact absurd hv (by simp [Val.isList])
    | vnull => rfl
    | vbool b => rfl
    | vint n => rfl
    | vstr s => rfl
    | vdict kvs => rfl
  · rw [convert_comparison_eq f0 "in" (.vlist xs) none _in rfl]
    show Except.ok (treatedField f0 (Val.vlist xs) ++ " IN (select value from json_each(?))",
      List.filter keepParam [Val.vstr (jsonDumps (.vlist xs))]) = _
    rw [List.filter_cons, keepParam_dumps xs]
    rfl
  · rw [convert_comparison_eq f0 "not in" (.vlist xs) none _not_in rfl]
    show Except.ok (treatedField f0 (Val.vlist xs) ++ " IS NULL OR " ++
        treatedField f0 (Val.vlist xs) ++ " NOT IN (select value from json_each(?))",
      List.filter keepParam [Val.vstr (jsonDumps (.vlist xs))]) = _
    rw [List.filter_cons, keepParam_dumps xs]
    rfl
  · rw [countQ_append]
    have h1 : countQ " IN (select value from json_each(?))" = 1 := by decide
    omega
  · rw [countQ_append, countQ_append, countQ_append]
    have h1 : countQ " IS NULL OR " = 0 := by decide
    have h2 : countQ " NOT IN (select value from json_each(?))" = 1 := by decide
    omega

/-- **C6** (witness): the membership theorem applied at a concrete field,
a concrete non-list value and a concrete two-element list. -/
theorem c6_witness :
    isFilterError (_convert_filters_to_where_clause_and_params
      (.mk (some "f") (some "in") (some (.vint 7)) none)) = true ∧
    _convert_filters_to_where_clause_and_params
        (.mk (some "f") (some "not in") (some (.vlist [.vint 1, .vint 2])) none) =
      .ok ("f IS NULL OR f NOT IN (select value from json_each(?))", [.vstr "[1, 2]"]) :=
  ⟨((c6_membership "f" (.vint 7) []).1 rfl).1,
   (c6_membership "f" (.vint 7) [.vint 1, .vint 2]).2.2.1⟩

/-- **C7**: for every ordering operator (`>`, `>=`, `<`, `<=`), a list or
dict value raises `FilterError`; a string value that
`datetime.fromisoformat` rejects raises `FilterError`; and an accepted
ISO-8601 string compiles to `field <op> ?` with that string as the single
parameter. -/
theorem c7_ordering (op : String) (hop : op ∈ ([">", ">=", "<", "<="] : List String))
    (f0 : String) :
    (∀ v : Val, Val.isList v = true ∨ Val.isDict v = true →
      isFilterError (_convert_filters_to_where_clause_and_params
        (.mk (some f0) (some op) (some v) none)) = true) ∧
    (∀ s : String, fromisoformatOk s = false →
      isFilterError (_convert_filters_to_where_clause_and_params
        (.mk (some f0) (some op) (some (.vstr s)) none)) = true) ∧
    (∀ s : String, fromisoformatOk s = true →
      _convert_filters_to_where_clause_and_params
          (.mk (some f0) (some op) (some (.vstr s)) none) =
        .ok (treatedField f0 (.vstr s) ++ " " ++ op ++ " ?", [.vstr s])) := by
  have keep_of_iso : ∀ s : String, fromisoformatOk s = true → keepParam (Val.vstr s) = true := by
    intro s hs
    apply keepParam_of_ne
    simp only [valueIsNoValueStr, beq_eq_false_iff_ne]
    intro h
    rw [h] at hs
    exact absurd hs (by decide)
  simp only [List.mem_cons, List.not_mem_nil, or_false] at hop
  rcases hop with rfl | rfl | rfl | rfl
  · refine ⟨fun v hv => ?_, fun s hs => ?_, fun s hs => ?_⟩
    · cases v <;> first | rfl | (rcases hv with h | h <;> simp [Val.isList, Val.isDict] at h)
    · rw [convert_comparison_eq f0 ">" (.vstr s) none _greater_than rfl]
      simp only [_greater_than, hs]
      rfl
    · rw [convert_comparison_eq f0 ">" (.vstr s) none _greater_than rfl]
      simp only [_greater_than, hs, List.filter_cons, keep_of_iso s hs, if_true]
      rw [String.append_assoc, String.append_assoc,
        show (" " : String) ++ (">" ++ " ?") = " > ?" from rfl, List.filter_nil]
  · refine ⟨fun v hv => ?_, fun s hs => ?_, fun s hs => ?_⟩
    · cases v <;> first | rfl | (rcases hv with h | h <;> simp [Val.isList, Val.isDict] at h)
    · rw [convert_comparison_eq f0 ">=" (.vstr s) none _greater_than_equal rfl]
      simp only [_greater_than_equal, hs]
      rfl
    · rw [convert_comparison_eq f0 ">=" (.vstr s) none _greater_than_equal rfl]
      simp only [_greater_than_equal, hs, List.filter_cons, keep_of_iso s hs, if_true]
      rw [String.append_assoc, String.append_assoc,
        show (" " : String) ++ (">=" ++ " ?") = " >= ?" from rfl, List.filter_nil]
  · refine ⟨fun v hv => ?_, fun s hs => ?_, fun s hs => ?_⟩
    · cases v <;> first | rfl | (rcases hv with h | h <;> simp [Val.isList, Val.isDict] at h)
    · rw [convert_comparison_eq f0 "<" (.vstr s) none _less_than rfl]
      simp only [_less_than, hs]
      rfl
    · rw [convert_comparison_eq f0 "<" (.vstr s) none _less_than rfl]
      simp only [_less_than, hs, List.filter_cons, keep_of_iso s hs, if_true]
      rw [String.append_assoc, String.append_assoc,
        show (" " : String) ++ ("<" ++ " ?") = " < ?" from rfl, List.filter_nil]
  · refine ⟨fun v hv => ?_, fun s hs => ?_, fun s hs => ?_⟩
    · cases v <;> first | rfl | (rcases hv with h | h <;> simp [Val.isList, Val.isDict] at h)
    · rw [convert_comparison_eq f0 "<=" (.vstr s) none _less_than_equal rfl]
      simp only [_less_than_equal, hs]
      rfl
    · rw [convert_comparison_eq f0 "<=" (.vstr s) none _less_than_equal rfl]
      simp only [_less_than_equal, hs, List.filter_cons, keep_of_iso s hs, if_true]
      rw [String.append_assoc, String.append_assoc,
        show (" " : String) ++ ("<=" ++ " ?") = " <= ?" from rfl, List.filter_nil]

/-- **C7** (witness): the ordering theorem applied at `>` with a concrete
list value, a concrete non-ISO string and a concrete ISO date. -/
theorem c7_witness :
    isFilterError (_convert_filters_to_where_clause_and_params
      (.mk (some "f") (some ">") (some (.vlist [])) none)) = true ∧
    isFilterError (_convert_filters_to_where_clause_and_params
      (.mk (some "f") (some ">") (some (.vstr "hello")) none)) = true ∧
    _convert_filters_to_where_clause_and_params
        (.mk (some "f") (some "<=") (some (.vstr "2024-01-01")) none) =
      .ok ("f <= ?", [.vstr "2024-01-01"]) :=
  ⟨(c7_ordering ">" (by decide) "f").1 (.vlist []) (Or.inl rfl),
   (c7_ordering ">" (by decide) "f").2.1 "hello" (by decide),
   (c7_ordering "<=" (by decide) "f").2.2 "2024-01-01" (by decide)⟩

/-- **C8**: a `NOT` node over a nonempty, successfully-compiled condition
list produces a single negation wrapping the `" AND "`-join of all child
fragments, with the children's parameter lists concatenated left-to-right. -/
theorem c8_not_conjunction (cs : List FilterDict) (rs : List (String × List Val))
    (hne : cs ≠ []) (hp : _parse_conditions_list cs = .ok rs) :
    _parse_logical_condition (.mk none (some "NOT") none (some cs)) =
      .ok ("NOT (" ++ joinSep " AND " (rs.map Prod.fst) ++ ")",
        (rs.map Prod.snd).flatten) := by
  cases cs with
  | nil => exact absurd rfl hne
  | cons c cs' =>
    obtain ⟨r, rs', rfl⟩ : ∃ r rs', rs = r :: rs' := by
      rw [parse_conditions_cons] at hp
      rcases h1 : parseCondition c with e | r
      · rw [h1] at hp; cases hp
      · rw [h1] at hp
        rcases h2 : _parse_conditions_list cs' with e | rs0
        · rw [h2] at hp; cases hp
        · rw [h2] at hp
          injection hp with h3
          exact ⟨r, rs0, h3.symm⟩
    simp only [_parse_logical_condition]
    rw [hp]
    rfl

/-- **C8** (witness): `NOT` over two concrete equality conditions
compiles to one negation over their conjunction. -/
theorem c8_witness :
    _parse_logical_condition (.mk none (some "NOT") none
        (some [.mk (some "a") (some "==") (some (.vstr "x")) none,
               .mk (some "b") (some "==") (some (.vstr "y")) none])) =
      .ok ("NOT (a = ? AND b = ?)", [.vstr "x", .vstr "y"]) :=
  c8_not_conjunction
    [.mk (some "a") (some "==") (some (.vstr "x")) none,
     .mk (some "b") (some "==") (some (.vstr "y")) none]
    [("a = ?", [.vstr "x"]), ("b = ?", [.vstr "y"])] (by simp) rfl

/-- **C10**: for *every* `AND` node with a `not in` child at any
position among any other successfully-compiled conditions, (a) the
compiled fragment joins the children with `" AND "` and embeds the
child's `IS NULL OR ... NOT IN` disjunction verbatim, without
parentheses around the child; (b) the joined chain is therefore
*literally* the string `A ++ " OR " ++ B`, where `A` is the
`" AND "`-join of the preceding siblings with `field IS NULL` and `B`
the `" AND "`-join of `field NOT IN (...)` with the following siblings —
exactly the two operands standard SQL precedence assigns; (c) under the
precedence model `sqlAndOrEval` (AND tighter than OR), whenever the
sibling group `A` is splitter-atomic and balanced and `B` splits whole,
the chain evaluates as `(pre-siblings AND field IS NULL) OR
(field NOT IN (...) AND post-siblings)`; and (d) at a concrete instance
this differs from the `siblings AND (field IS NULL OR field NOT IN
(...))` grouping: a valuation making only the `NOT IN` atom true
satisfies the compiled chain but not that grouping. -/
theorem c10_not_in_precedence (pre post : List FilterDict)
    (rsPre rsPost : List (String × List Val)) (f0 : String) (xs : List Val)
    (hpre : _parse_conditions_list pre = .ok rsPre)
    (hpost : _parse_conditions_list post = .ok rsPost)
    (hsib : pre ≠ [] ∨ post ≠ []) :
    _parse_logical_condition (.mk none (some "AND") none
        (some (pre ++ .mk (some f0) (some "not in") (some (.vlist xs)) none :: post))) =
      .ok ("(" ++ joinSep " AND " (rsPre.map Prod.fst ++
            (treatedField f0 (.vlist xs) ++ " IS NULL OR " ++ treatedField f0 (.vlist xs) ++
              " NOT IN (select value from json_each(?))") :: rsPost.map Prod.fst) ++ ")",
        (rsPre.map Prod.snd).flatten ++
          Val.vstr (jsonDumps (.vlist xs)) :: (rsPost.map Prod.snd).flatten) ∧
    joinSep " AND " (rsPre.map Prod.fst ++
        (treatedField f0 (.vlist xs) ++ " IS NULL OR " ++ treatedField f0 (.vlist xs) ++
          " NOT IN (select value from json_each(?))") :: rsPost.map Prod.fst) =
      joinSep " AND " (rsPre.map Prod.fst ++ [treatedField f0 (.vlist xs) ++ " IS NULL"]) ++
        " OR " ++
        joinSep " AND " ((treatedField f0 (.vlist xs) ++
          " NOT IN (select value from json_each(?))") :: rsPost.map Prod.fst) ∧
    (∀ v : String → Bool,
      scanAtomic " OR ".data (" OR ".data ++
          (joinSep " AND " ((treatedField f0 (.vlist xs) ++
            " NOT IN (select value from json_each(?))") :: rsPost.map Prod.fst)).data)
        (joinSep " AND " (rsPre.map Prod.fst ++
          [treatedField f0 (.vlist xs) ++ " IS NULL"])).data 0 = true →
      depthAfter (joinSep " AND " (rsPre.map Prod.fst ++
          [treatedField f0 (.vlist xs) ++ " IS NULL"])).data 0 = 0 →
      splitTop " OR " (joinSep " AND " ((treatedField f0 (.vlist xs) ++
          " NOT IN (select value from json_each(?))") :: rsPost.map Prod.fst)) =
        [joinSep " AND " ((treatedField f0 (.vlist xs) ++
          " NOT IN (select value from json_each(?))") :: rsPost.map Prod.fst)] →
      sqlAndOrEval v (joinSep " AND " (rsPre.map Prod.fst ++
          (treatedField f0 (.vlist xs) ++ " IS NULL OR " ++ treatedField f0 (.vlist xs) ++
            " NOT IN (select value from json_each(?))") :: rsPost.map Prod.fst)) =
        ((splitTop " AND " (joinSep " AND " (rsPre.map Prod.fst ++
            [treatedField f0 (.vlist xs) ++ " IS NULL"]))).all v ||
          (splitTop " AND " (joinSep " AND " ((treatedField f0 (.vlist xs) ++
            " NOT IN (select value from json_each(?))") :: rsPost.map Prod.fst))).all v)) ∧
    splitTop " OR " "a = ? AND b IS NULL OR b NOT IN (select value from json_each(?))" =
      ["a = ? AND b IS NULL", "b NOT IN (select value from json_each(?))"] ∧
    sqlAndOrEval (fun s => s == "b NOT IN (select value from json_each(?))")
      "a = ? AND b IS NULL OR b NOT IN (select value from json_each(?))" = true ∧
    (("a = ?" == "b NOT IN (select value from json_each(?))") &&
      (("b IS NULL" == "b NOT IN (select value from json_each(?))") ||
        ("b NOT IN (select value from json_each(?))" ==
          "b NOT IN (select value from json_each(?))"))) = false := by
  have hni : treatedField f0 (.vlist xs) ++ " IS NULL OR " ++ treatedField f0 (.vlist xs) ++
      " NOT IN (select value from json_each(?))" =
      (treatedField f0 (.vlist xs) ++ " IS NULL") ++ " OR " ++
        (treatedField f0 (.vlist xs) ++ " NOT IN (select value from json_each(?))") := by
    simp only [String.append_assoc]
    rw [← String.append_assoc " IS NULL" " OR "
      (treatedField f0 (.vlist xs) ++ " NOT IN (select value from json_each(?))")]
    rfl
  have hfact : joinSep " AND " (rsPre.map Prod.fst ++
      (treatedField f0 (.vlist xs) ++ " IS NULL OR " ++ treatedField f0 (.vlist xs) ++
        " NOT IN (select value from json_each(?))") :: rsPost.map Prod.fst) =
      joinSep " AND " (rsPre.map Prod.fst ++
        [treatedField f0 (.vlist xs) ++ " IS NULL"]) ++ " OR " ++
      joinSep " AND " ((treatedField f0 (.vlist xs) ++
        " NOT IN (select value from json_each(?))") :: rsPost.map Prod.fst) := by
    rw [hni]
    exact joinSep_mid_or (rsPre.map Prod.fst) (rsPost.map Prod.fst) _ _
  refine ⟨?_, hfact, fun v hs hb hB2 => ?_, by decide, by decide, by decide⟩
  · have hcons : _parse_conditions_list
        ((.mk (some f0) (some "not in") (some (.vlist xs)) none : FilterDict) :: post) =
        .ok ((treatedField f0 (.vlist xs) ++ " IS NULL OR " ++ treatedField f0 (.vlist xs) ++
            " NOT IN (select value from json_each(?))",
          [Val.vstr (jsonDumps (.vlist xs))]) :: rsPost) := by
      rw [parse_conditions_cons, hpost]
      rfl
    have hp := parse_conditions_append pre _ _ hcons rsPre hpre
    have hne : pre ++ (.mk (some f0) (some "not in") (some (.vlist xs)) none : FilterDict) ::
        post ≠ [] := by
      cases pre <;> simp
    refine Eq.trans (logical_and_join _ _ hne hp) ?_
    simp
  · rw [hfact]
    exact sqlAndOrEval_append_or v _ _ hs hb hB2

/-- **C10** (witness): the theorem applied to the two-child instance
`AND [a == "x", b not in [1, 2]]`, with the semantic conjunct
instantiated at the valuation satisfying only the `NOT IN` atom. -/
theorem c10_witness :
    _parse_logical_condition (.mk none (some "AND") none
        (some [.mk (some "a") (some "==") (some (.vstr "x")) none,
               .mk (some "b") (some "not in") (some (.vlist [.vint 1, .vint 2])) none])) =
      .ok ("(a = ? AND b IS NULL OR b NOT IN (select value from json_each(?)))",
        [.vstr "x", .vstr "[1, 2]"]) ∧
    joinSep " AND " ["a = ?",
        "b IS NULL OR b NOT IN (select value from json_each(?))"] =
      "a = ? AND b IS NULL" ++ " OR " ++ "b NOT IN (select value from json_each(?))" ∧
    sqlAndOrEval (fun s => s == "b NOT IN (select value from json_each(?))")
        "a = ? AND b IS NULL OR b NOT IN (select value from json_each(?))" =
      ((splitTop " AND " "a = ? AND b IS NULL").all
          (fun s => s == "b NOT IN (select value from json_each(?))") ||
        (splitTop " AND " "b NOT IN (select value from json_each(?))").all
          (fun s => s == "b NOT IN (select value from json_each(?))")) := by
  have H := c10_not_in_precedence
    [.mk (some "a") (some "==") (some (.vstr "x")) none] []
    [("a = ?", [.vstr "x"])] [] "b" [.vint 1, .vint 2] rfl rfl (Or.inl (by simp))
  exact ⟨H.1, H.2.1,
    H.2.2.1 (fun s => s == "b NOT IN (select value from json_each(?))")
      (by decide) (by decide) (by decide)⟩

end SqliteHaystack
